import Mathlib

/-!
# Pretty printer of scan results (`core/pkg/resultshandling/printer/v2/prettyprinter.go`)

A shallow embedding of the report renderer and proofs about it.

Conventions of the embedding:

* A Go `string` is a Lean `String` (valid UTF-8).  `len(s)` is `s.utf8ByteSize`, a
  slice `s[:k]` is `s.extract 0 ⟨k⟩` (both count bytes, as Go does), `fmt.Sprintf`
  with `%s` verbs is concatenation and `%d` of a count is its decimal rendering.
* An interface value (`IMetadata`, `IControlSummary`, `IStatus`, `ICounters`, ...) is the
  record of the results of the methods the printer calls on it.
* `pp.writer` is the list of write calls issued so far.  The colour helpers of `cautils`
  (`InfoDisplay`, `SimpleDisplay`, ...) are `Fprintf`-like functions of an external
  colour library; a call is recorded with its style, its format string and its
  arguments.  The text such a call writes from a format string without operands is
  given by `fprintfNoOperands`.
* Methods of `*PrettyPrinter` take the printer state and return the new one.
* Functions of the package that live in other files (`generateRow`,
  `groupByNamespaceOrKind`, ...) are passed in through `Deps`.
-/

namespace Kubescape

/-! ## Library types -/

/-- Go type `workloadinterface.ObjectType`, a string type. -/
abbrev ObjectType := String

/-- Constant `workloadinterface.TypeWorkloadObject`. -/
def TypeWorkloadObject : ObjectType := "workload"

/-- View of one related object: an `IMetadata` of which the printer reads the
namespace, the kind and the name. -/
structure RelatedObject where
  GetNamespace : String
  GetKind : String
  GetName : String
deriving DecidableEq, Repr

/-- View of `workloadinterface.IMetadata` as used on `WorkloadSummary.resource`.
`GetRelatedObjects` is
`objectsenvelopes.NewRegoResponseVectorObject(resource.GetObject()).GetRelatedObjects()`. -/
structure IMetadata where
  GetObjectType : ObjectType
  GetKind : String
  GetName : String
  GetRelatedObjects : List RelatedObject
deriving DecidableEq, Repr

/-- Statuses of `apis.ScanningStatus` that the printer distinguishes. -/
inductive ScanningStatus where
  | StatusPassed
  | StatusFailed
  | StatusSkipped
  | StatusExcluded
  | StatusIrrelevant
  | StatusError
deriving DecidableEq, Repr

/-- Struct `WorkloadSummary` of the package: a resource and the status it received. -/
structure WorkloadSummary where
  resource : IMetadata
  status : ScanningStatus
deriving DecidableEq, Repr

/-- View of `apis.IStatus`: the results of the four methods the printer calls. -/
structure IStatus where
  Status : ScanningStatus
  Info : String
  IsSkipped : Bool
  IsFailed : Bool
deriving DecidableEq, Repr

/-- View of `reportsummary.ICounters`.  The counters are lengths of lists, hence
natural numbers. -/
structure ICounters where
  Passed : Nat
  Excluded : Nat
  Failed : Nat
  Skipped : Nat
  All : Nat
deriving DecidableEq, Repr

/-- A `float32` value, carried as its bit pattern.  The printer only hands it to the
`%.2f` verb, see `Deps.fmt2f`. -/
structure Float32 where
  bits : Nat
deriving DecidableEq, Repr

/-- View of `reportsummary.IControlSummary`. -/
structure IControlSummary where
  GetID : String
  GetName : String
  GetDescription : String
  GetRemediation : String
  GetStatus : IStatus
  NumberOfResources : ICounters
  GetScore : Float32
deriving DecidableEq, Repr

/-- View of `reportsummary.IFrameworkSummary`. -/
structure IFrameworkSummary where
  GetName : String
  GetScore : Float32
deriving DecidableEq, Repr

/-- View of `reportsummary.ISeverityCounters`. -/
structure ISeverityCounters where
  NumberOfCriticalSeverity : Nat
  NumberOfHighSeverity : Nat
  NumberOfMediumSeverity : Nat
  NumberOfLowSeverity : Nat
deriving DecidableEq, Repr

/-- Type `reportsummary.ControlSummaries`, seen through its lookup
`GetControl(reportsummary.EControlCriteriaID, id)`.  The identifiers handed to the
lookup by the printer are the ones `getSortedControlsIDs` read off the same
collection. -/
structure ControlSummaries where
  GetControl : String → IControlSummary

/-- View of `reportsummary.SummaryDetails`. -/
structure SummaryDetails where
  Controls : ControlSummaries
  NumberOfControls : ICounters
  NumberOfResources : ICounters
  GetResourcesSeverityCounters : ISeverityCounters
  Score : Float32
  ListFrameworks : List IFrameworkSummary

/-- Struct `infoStars` of the package. -/
structure infoStars where
  stars : String
  info : String
deriving DecidableEq, Repr

/-! ## Output -/

/-- The writing helpers: `fmt.Fprintf` on the raw writer and the colour helpers of
`cautils`. -/
inductive Style where
  | Fprintf
  | SimpleDisplay
  | SuccessDisplay
  | WarningDisplay
  | FailureDisplay
  | InfoDisplay
  | InfoTextDisplay
  | DescriptionDisplay
deriving DecidableEq, Repr

/-- Glyph constants of the `emoji` package used by `printTitle`. -/
inductive Emoji where
  | ConfusedFace
  | SadButRelievedFace
  | NeutralFace
  | ThumbsUp
deriving DecidableEq, Repr

/-- An argument handed to a format string. -/
inductive Arg where
  | str (s : String)
  | num (n : Nat)
  | emoji (e : Emoji)
deriving DecidableEq, Repr

/-- State of a `tablewriter.Table`: what the setters and `Append` stored. -/
structure Table where
  autoWrapText : Bool
  header : List String
  headerLine : Bool
  columnAlignment : List Int
  rows : List (List String)
  footer : List String
deriving DecidableEq, Repr

/-- One write to `pp.writer`: a formatted write or a rendered table. -/
inductive Out where
  | display (style : Style) (format : String) (args : List Arg)
  | table (t : Table)
deriving DecidableEq, Repr

/-- Go type `cautils.ViewTypes`. -/
inductive ViewTypes where
  | ControlViewType
  | ResourceViewType
deriving DecidableEq, Repr

/-- Struct `PrettyPrinter`; `writer` holds the writes issued so far, `stdout` the
lines `fmt.Println` sent to the standard output. -/
structure PrettyPrinter where
  writer : List Out
  stdout : List String
  formatVersion : String
  viewType : ViewTypes
  verboseMode : Bool
  printAttackTree : Bool
deriving DecidableEq, Repr

/-- View of `reporthandling.PostureReport`: the summary details of the report. -/
structure PostureReport where
  SummaryDetails : SummaryDetails

/-- View of `cautils.OPASessionObj`: the report and the map of all resources. -/
structure OPASessionObj where
  Report : PostureReport
  AllResources : List (String × IMetadata)

/-- A Go `map[string][]WorkloadSummary` as a `range` statement sees it: its entries in
the order in which this execution of the loop visits them.  Go leaves that order
unspecified, so every permutation of the entries is a possible visit order of the same
map; `len(m)` is the number of entries. -/
abbrev GroupedWorkloads := List (String × List WorkloadSummary)

/-- Functions and tables of the package that are defined outside `prettyprinter.go`,
and the rendering of the `%.2f` verb. -/
structure Deps where
  GetControlLink : String → String
  listResultSummary : IControlSummary → List (String × IMetadata) → List WorkloadSummary
  workloadSummaryFailed : WorkloadSummary → Bool
  workloadSummaryExclude : WorkloadSummary → Bool
  workloadSummaryPassed : WorkloadSummary → Bool
  groupByNamespaceOrKind : List WorkloadSummary → (WorkloadSummary → Bool) → GroupedWorkloads
  mapInfoToPrintInfo : ControlSummaries → List infoStars
  generateRow : IControlSummary → List infoStars → Bool → List String
  getControlTableHeaders : List String
  getColumnsAlignments : List Int
  getSortedControlsIDs : ControlSummaries → List (List String)
  resourceTable : PrettyPrinter → OPASessionObj → PrettyPrinter
  printAttackTracks : PrettyPrinter → OPASessionObj → PrettyPrinter
  fmt2f : Float32 → String

/-- Write through one of the helpers: append the call to the writer. -/
def PrettyPrinter.display (pp : PrettyPrinter) (style : Style) (format : String)
    (args : List Arg) : PrettyPrinter :=
  { pp with writer := pp.writer ++ [Out.display style format args] }

/-! ## Go runtime pieces -/

/-- Go slice expression `s[:len(s)-2]`. -/
def sliceDropLast2 (s : String) : String := s.extract 0 ⟨s.utf8ByteSize - 2⟩

/-- Bytes of a Go string. -/
def goStringBytes (s : String) : List Nat :=
  (s.data.flatMap String.utf8EncodeChar).map UInt8.toNat

/-- Lexicographic comparison of byte sequences. -/
def bytesLE : List Nat → List Nat → Bool
  | [], _ => true
  | _ :: _, [] => false
  | a :: as, b :: bs => a < b || (a == b && bytesLE as bs)

/-- Go comparison `a <= b` of strings: bytewise lexicographic. -/
def goStringLE (a b : String) : Prop := bytesLE (goStringBytes a) (goStringBytes b) = true

instance goStringLE_decidable : DecidableRel goStringLE :=
  fun a b => inferInstanceAs (Decidable (bytesLE (goStringBytes a) (goStringBytes b) = true))

/-- Library call `sort.Strings`: the ascending rearrangement of the slice. -/
def sortStrings (l : List String) : List String := l.insertionSort goStringLE

/-- Go `strings.HasSuffix(s, ", ")`: the string ends with the separator. -/
def endsWithSeparator (s : String) : Prop := ", ".data <:+ s.data

instance endsWithSeparator_decidable (s : String) : Decidable (endsWithSeparator s) :=
  inferInstanceAs (Decidable (", ".data <:+ s.data))

/-! ## `generateRelatedObjectsStr` -/

/-- Loop `for i, related := range relatedObjects` of `generateRelatedObjectsStr`,
from index `i` with the string built so far. -/
def relatedObjectsLoop : List RelatedObject → Nat → String → String
  | [], _, relatedStr => relatedStr
  | related :: rest, i, relatedStr =>
    let ns := related.GetNamespace
    let relatedStr1 :=
      if i = 0 ∧ ns ≠ "" then relatedStr ++ ("Namespace - " ++ ns ++ ", ") else relatedStr
    relatedObjectsLoop rest (i + 1)
      (relatedStr1 ++ (related.GetKind ++ " - " ++ related.GetName ++ ", "))

/-- Function `generateRelatedObjectsStr`. -/
def generateRelatedObjectsStr (workload : WorkloadSummary) : String :=
  let relatedStr :=
    if workload.resource.GetObjectType = TypeWorkloadObject then
      relatedObjectsLoop workload.resource.GetRelatedObjects 0 ""
    else ""
  if relatedStr ≠ "" then " [" ++ sliceDropLast2 relatedStr ++ "]" else relatedStr

/-- Reference: the entry `kind ++ " - " ++ name` of one related object. -/
def relatedEntry (r : RelatedObject) : String := r.GetKind ++ " - " ++ r.GetName

/-- Reference: the namespace part, present when the namespace of the first related
object is non-empty. -/
def namespacePart (r : RelatedObject) : String :=
  if r.GetNamespace ≠ "" then "Namespace - " ++ r.GetNamespace ++ ", " else ""

/-- Reference: the text between the brackets, for a non-empty list of related
objects. -/
def relatedInner (r1 : RelatedObject) (rest : List RelatedObject) : String :=
  namespacePart r1 ++ ", ".intercalate ((r1 :: rest).map relatedEntry)

/-- Reference definition of the related-objects suffix, written from the
specification. -/
def relatedObjectsStrRef (workload : WorkloadSummary) : String :=
  if workload.resource.GetObjectType = TypeWorkloadObject then
    match workload.resource.GetRelatedObjects with
    | [] => ""
    | r1 :: rest => " [" ++ relatedInner r1 rest ++ "]"
  else ""

/-- Concatenation of the entries, each followed by the separator. -/
def appendEach (sep : String) : List String → String
  | [] => ""
  | a :: as => a ++ sep ++ appendEach sep as

/-! ## Per-control sections -/

/-- Method `printSummary`. -/
def printSummary (pp : PrettyPrinter) (_controlName : String)
    (controlSummary : IControlSummary) : PrettyPrinter :=
  if controlSummary.GetStatus.IsSkipped then pp
  else
    let pp := pp.display Style.SimpleDisplay "Summary - " []
    let pp := pp.display Style.SuccessDisplay "Passed:%v   "
      [Arg.num controlSummary.NumberOfResources.Passed]
    let pp := pp.display Style.WarningDisplay "Excluded:%v   "
      [Arg.num controlSummary.NumberOfResources.Excluded]
    let pp := pp.display Style.FailureDisplay "Failed:%v   "
      [Arg.num controlSummary.NumberOfResources.Failed]
    let pp := pp.display Style.InfoDisplay "Total:%v\n"
      [Arg.num controlSummary.NumberOfResources.All]
    let pp :=
      if controlSummary.GetStatus.IsFailed then
        pp.display Style.DescriptionDisplay "Remediation: %v\n"
          [Arg.str controlSummary.GetRemediation]
      else pp
    pp.display Style.DescriptionDisplay "\n" []

/-- Method `printTitle`. -/
def printTitle (d : Deps) (pp : PrettyPrinter) (controlSummary : IControlSummary) :
    PrettyPrinter :=
  let pp := pp.display Style.InfoDisplay "[control: %s - %s] "
    [Arg.str controlSummary.GetName, Arg.str (d.GetControlLink controlSummary.GetID)]
  let pp :=
    match controlSummary.GetStatus.Status with
    | ScanningStatus.StatusSkipped =>
      pp.display Style.InfoDisplay "skipped %v\n" [Arg.emoji Emoji.ConfusedFace]
    | ScanningStatus.StatusFailed =>
      pp.display Style.FailureDisplay "failed %v\n" [Arg.emoji Emoji.SadButRelievedFace]
    | ScanningStatus.StatusExcluded =>
      pp.display Style.WarningDisplay "excluded %v\n" [Arg.emoji Emoji.NeutralFace]
    | ScanningStatus.StatusIrrelevant =>
      pp.display Style.SuccessDisplay "irrelevant %v\n" [Arg.emoji Emoji.ConfusedFace]
    | ScanningStatus.StatusError =>
      pp.display Style.WarningDisplay "error %v\n" [Arg.emoji Emoji.ConfusedFace]
    | _ => pp.display Style.SuccessDisplay "passed %v\n" [Arg.emoji Emoji.ThumbsUp]
  let pp := pp.display Style.DescriptionDisplay "Description: %s\n"
    [Arg.str controlSummary.GetDescription]
  if controlSummary.GetStatus.Info ≠ "" then
    pp.display Style.WarningDisplay "Reason: %v\n" [Arg.str controlSummary.GetStatus.Info]
  else pp

/-- The string `fmt.Sprintf("%s%s - %s %s", indent, kind, name, relatedObjectsStr)` built
for one workload in `printGroupedResource`. -/
def resourceLine (indent : String) (r : WorkloadSummary) : String :=
  indent ++ r.resource.GetKind ++ " - " ++ r.resource.GetName ++ " " ++
    generateRelatedObjectsStr r

/-- The write `cautils.SimpleDisplay(pp.writer, resources[i]+"\n")`. -/
def resourceWrite (line : String) : Out := Out.display Style.SimpleDisplay (line ++ "\n") []

/-- Method `printGroupedResource`. -/
def printGroupedResource (pp : PrettyPrinter) (indent : String) (title : String)
    (rsc : List WorkloadSummary) : PrettyPrinter :=
  let st : PrettyPrinter × String :=
    if title ≠ "" then
      (pp.display Style.SimpleDisplay "%s%s\n" [Arg.str indent, Arg.str title], indent ++ indent)
    else (pp, indent)
  let pp := st.1
  let indent := st.2
  let resources : List String := rsc.foldl (fun acc r => acc ++ [resourceLine indent r]) []
  let resources := sortStrings resources
  resources.foldl (fun pp r => pp.display Style.SimpleDisplay (r ++ "\n") []) pp

/-- Method `printGroupedResources`: the `range` over the map visits the entries in the
order of the list. -/
def printGroupedResources (pp : PrettyPrinter) (workloads : GroupedWorkloads) :
    PrettyPrinter :=
  let indent := "  "
  workloads.foldl (fun pp entry => printGroupedResource pp indent entry.1 entry.2) pp

/-- Method `printResources`. -/
def printResources (d : Deps) (pp : PrettyPrinter) (controlSummary : IControlSummary)
    (allResources : List (String × IMetadata)) : PrettyPrinter :=
  let workloadsSummary := d.listResultSummary controlSummary allResources
  let failedWorkloads := d.groupByNamespaceOrKind workloadsSummary d.workloadSummaryFailed
  let excludedWorkloads := d.groupByNamespaceOrKind workloadsSummary d.workloadSummaryExclude
  let passedWorkloads : GroupedWorkloads :=
    if pp.verboseMode then d.groupByNamespaceOrKind workloadsSummary d.workloadSummaryPassed
    else []
  let pp :=
    if failedWorkloads.length > 0 then
      printGroupedResources (pp.display Style.FailureDisplay "Failed:\n" []) failedWorkloads
    else pp
  let pp :=
    if excludedWorkloads.length > 0 then
      printGroupedResources (pp.display Style.WarningDisplay "Excluded:\n" []) excludedWorkloads
    else pp
  if passedWorkloads.length > 0 then
    printGroupedResources (pp.display Style.SuccessDisplay "Passed:\n" []) passedWorkloads
  else pp

/-- Inner loop `for _, c := range sortedControlIDs[i]` of `printResults`. -/
def printResultsBucket (d : Deps) (controls : ControlSummaries)
    (allResources : List (String × IMetadata)) : List String → PrettyPrinter → PrettyPrinter
  | [], pp => pp
  | c :: rest, pp =>
    let controlSummary := controls.GetControl c
    let pp := printTitle d pp controlSummary
    let pp := printResources d pp controlSummary allResources
    let pp := printSummary pp c controlSummary
    printResultsBucket d controls allResources rest pp

/-- Outer loop `for i := len(sortedControlIDs) - 1; i >= 0; i--` of `printResults`; the
counter is `i + 1`, so it runs from `len(sortedControlIDs)` down to `0`. -/
def printResultsFrom (d : Deps) (controls : ControlSummaries)
    (allResources : List (String × IMetadata)) (sortedControlIDs : List (List String)) :
    Nat → PrettyPrinter → PrettyPrinter
  | 0, pp => pp
  | i + 1, pp =>
    printResultsFrom d controls allResources sortedControlIDs i
      (printResultsBucket d controls allResources (sortedControlIDs.getD i []) pp)

/-- Method `printResults`. -/
def printResults (d : Deps) (pp : PrettyPrinter) (controls : ControlSummaries)
    (allResources : List (String × IMetadata)) (sortedControlIDs : List (List String)) :
    PrettyPrinter :=
  printResultsFrom d controls allResources sortedControlIDs sortedControlIDs.length pp

/-! ## Summary table -/

/-- Verb `%d` of `fmt.Sprintf` on a count: its decimal rendering. -/
def fmtD (n : Nat) : String := Nat.repr n

/-- Modelled from the spec: the constant `columnName` of the package is declared outside
`prettyprinter.go`; section 6 fixes the column order Name, Severity, Failed-count,
Excluded-count, Total-count, Risk-score-percentage. -/
def columnName : Nat := 0

/-- Modelled from the spec: the constant `columnSeverity`, second column of section 6. -/
def columnSeverity : Nat := 1

/-- Modelled from the spec: the constant `columnCounterFailed`, third column of
section 6. -/
def columnCounterFailed : Nat := 2

/-- Modelled from the spec: the constant `columnCounterExclude`, fourth column of
section 6. -/
def columnCounterExclude : Nat := 3

/-- Modelled from the spec: the constant `columnCounterAll`, fifth column of section 6. -/
def columnCounterAll : Nat := 4

/-- Modelled from the spec: the constant `columnRiskScore`, sixth column of section 6. -/
def columnRiskScore : Nat := 5

/-- Modelled from the spec: the constant `_rowLen`, the number of columns of section 6. -/
def _rowLen : Nat := 6

/-- Function `generateFooter`. -/
def generateFooter (d : Deps) (summaryDetails : SummaryDetails) : List String :=
  let row : List String := List.replicate _rowLen ""
  let row := row.set columnName "Resource Summary"
  let row := row.set columnCounterFailed (fmtD summaryDetails.NumberOfResources.Failed)
  let row := row.set columnCounterExclude (fmtD summaryDetails.NumberOfResources.Excluded)
  let row := row.set columnCounterAll (fmtD summaryDetails.NumberOfResources.All)
  let row := row.set columnSeverity " "
  let row := row.set columnRiskScore (d.fmt2f summaryDetails.Score ++ "%")
  row

/-- Modelled from the spec: `generateRow`, the Report Row Builder of section 4.4, is
declared outside `prettyprinter.go`.  Given a control and the print-all flag it produces
an empty row when the control is suppressed (Skipped and not in print-all mode), and
otherwise the row of the control name, the failed, excluded and total resource counts,
the severity label and the risk score with two decimals and a percent sign.  The
severity label of a control is left to `severityLabel`. -/
def generateRow (fmt2f : Float32 → String) (severityLabel : IControlSummary → String)
    (controlSummary : IControlSummary) (_infoToPrintInfo : List infoStars) (printAll : Bool) :
    List String :=
  if controlSummary.GetStatus.IsSkipped ∧ printAll = false then []
  else
    let row : List String := List.replicate _rowLen ""
    let row := row.set columnName controlSummary.GetName
    let row := row.set columnCounterFailed (fmtD controlSummary.NumberOfResources.Failed)
    let row := row.set columnCounterExclude (fmtD controlSummary.NumberOfResources.Excluded)
    let row := row.set columnCounterAll (fmtD controlSummary.NumberOfResources.All)
    let row := row.set columnSeverity (severityLabel controlSummary)
    let row := row.set columnRiskScore (fmt2f controlSummary.GetScore ++ "%")
    row

/-- Function `controlCountersForSummary`. -/
def controlCountersForSummary (counters : ICounters) : String :=
  "Controls: " ++ fmtD counters.All ++ " (Failed: " ++ fmtD counters.Failed ++
    ", Excluded: " ++ fmtD counters.Excluded ++ ", Skipped: " ++ fmtD counters.Skipped ++ ")"

/-- Function `renderSeverityCountersSummary`. -/
def renderSeverityCountersSummary (counters : ISeverityCounters) : String :=
  let critical := counters.NumberOfCriticalSeverity
  let high := counters.NumberOfHighSeverity
  let medium := counters.NumberOfMediumSeverity
  let low := counters.NumberOfLowSeverity
  "Failed Resources by Severity: Critical — " ++ fmtD critical ++ ", High — " ++ fmtD high ++
    ", Medium — " ++ fmtD medium ++ ", Low — " ++ fmtD low

/-- The string `fmt.Sprintf("%s (risk: %.2f)", name, score)` of one framework. -/
def frameworkEntry (d : Deps) (f : IFrameworkSummary) : String :=
  f.GetName ++ " (risk: " ++ d.fmt2f f.GetScore ++ ")"

/-- Loop `for ; i < len(frameworks)-1; i++` of `frameworksScoresToString`, from index
`i` with the string `p` built so far; it returns the final `i` and `p`.  The first
argument bounds the number of iterations, `none` is an exhausted bound or an index out
of range. -/
def frameworksLoop (d : Deps) (frameworks : List IFrameworkSummary) :
    Nat → Nat → String → Option (Nat × String)
  | 0, _, _ => none
  | fuel + 1, i, p =>
    if i < frameworks.length - 1 then
      match frameworks[i]? with
      | none => none
      | some f => frameworksLoop d frameworks fuel (i + 1) (p ++ (frameworkEntry d f ++ ", "))
    else some (i, p)

/-- Function `frameworksScoresToString`; `none` is a run-time panic (index out of
range). -/
def frameworksScoresToString (d : Deps) (frameworks : List IFrameworkSummary) :
    Option String :=
  if frameworks.length = 1 then
    match frameworks[0]? with
    | none => none
    | some f0 => if f0.GetName ≠ "" then some ("FRAMEWORK " ++ f0.GetName ++ "\n") else some ""
  else if frameworks.length > 1 then
    match frameworksLoop d frameworks frameworks.length 0 "FRAMEWORKS: " with
    | none => none
    | some (i, p) =>
      match frameworks[i]? with
      | none => none
      | some f => some (p ++ (frameworkEntry d f ++ "\n"))
  else some ""

/-- Reference definition of the framework-score line, written from the
specification. -/
def frameworksScoresRef (d : Deps) : List IFrameworkSummary → String
  | [] => ""
  | [f] => if f.GetName ≠ "" then "FRAMEWORK " ++ f.GetName ++ "\n" else ""
  | f :: g :: rest =>
    "FRAMEWORKS: " ++ ", ".intercalate ((f :: g :: rest).map (frameworkEntry d)) ++ "\n"

/-- Method `printInfo`. -/
def printInfo (pp : PrettyPrinter) (infoToPrintInfo : List infoStars) : PrettyPrinter :=
  let pp := { pp with stdout := pp.stdout ++ ["\n"] }
  infoToPrintInfo.foldl
    (fun pp i => pp.display Style.InfoDisplay (i.stars ++ " " ++ i.info ++ "\n") []) pp

/-- The advisory written by `printSummaryTable` when no control was evaluated. -/
def advisory : Out :=
  Out.display Style.Fprintf
    "\nKubescape did not scan any of the resources, make sure you are scanning valid kubernetes manifests (Deployments, Pods, etc.)\n"
    []

/-- Inner loop `for _, c := range sortedControlIDs[i]` of `printSummaryTable`. -/
def summaryRowsBucket (d : Deps) (summaryDetails : SummaryDetails)
    (infoToPrintInfo : List infoStars) (printAll : Bool) : List String → Table → Table
  | [], summaryTable => summaryTable
  | c :: rest, summaryTable =>
    let row := d.generateRow (summaryDetails.Controls.GetControl c) infoToPrintInfo printAll
    let summaryTable :=
      if row.length > 0 then { summaryTable with rows := summaryTable.rows ++ [row] }
      else summaryTable
    summaryRowsBucket d summaryDetails infoToPrintInfo printAll rest summaryTable

/-- Outer loop `for i := len(sortedControlIDs) - 1; i >= 0; i--` of `printSummaryTable`;
the counter is `i + 1`. -/
def summaryRowsFrom (d : Deps) (summaryDetails : SummaryDetails)
    (infoToPrintInfo : List infoStars) (printAll : Bool) (sortedControlIDs : List (List String)) :
    Nat → Table → Table
  | 0, summaryTable => summaryTable
  | i + 1, summaryTable =>
    summaryRowsFrom d summaryDetails infoToPrintInfo printAll sortedControlIDs i
      (summaryRowsBucket d summaryDetails infoToPrintInfo printAll
        (sortedControlIDs.getD i []) summaryTable)

/-- Value of `printAll` in `printSummaryTable`. -/
def printAllOf (pp : PrettyPrinter) (summaryDetails : SummaryDetails) : Bool :=
  if summaryDetails.NumberOfResources.Failed = 0 then true else pp.verboseMode

/-- Method `printSummaryTable`; `none` is a run-time panic. -/
def printSummaryTable (d : Deps) (pp : PrettyPrinter) (summaryDetails : SummaryDetails)
    (sortedControlIDs : List (List String)) : Option PrettyPrinter :=
  if summaryDetails.NumberOfControls.All = 0 then
    some { pp with writer := pp.writer ++ [advisory] }
  else
    let pp := pp.display Style.InfoTextDisplay
      ("\n" ++ controlCountersForSummary summaryDetails.NumberOfControls ++ "\n") []
    let pp := pp.display Style.InfoTextDisplay
      (renderSeverityCountersSummary summaryDetails.GetResourcesSeverityCounters ++ "\n\n") []
    let summaryTable : Table :=
      { autoWrapText := true, header := [], headerLine := true, columnAlignment := [],
        rows := [], footer := [] }
    let summaryTable := { summaryTable with autoWrapText := false }
    let summaryTable := { summaryTable with header := d.getControlTableHeaders }
    let summaryTable := { summaryTable with headerLine := true }
    let summaryTable := { summaryTable with columnAlignment := d.getColumnsAlignments }
    let printAll := printAllOf pp summaryDetails
    let infoToPrintInfo := d.mapInfoToPrintInfo summaryDetails.Controls
    let summaryTable := summaryRowsFrom d summaryDetails infoToPrintInfo printAll
      sortedControlIDs sortedControlIDs.length summaryTable
    let summaryTable := { summaryTable with footer := generateFooter d summaryDetails }
    let pp := { pp with writer := pp.writer ++ [Out.table summaryTable] }
    match frameworksScoresToString d summaryDetails.ListFrameworks with
    | none => none
    | some line =>
      let pp := pp.display Style.InfoTextDisplay line []
      some (printInfo pp infoToPrintInfo)

/-! ## Entry point -/

/-- Loop `for i := 0; i < 80; i++` of `getSeparator`, with `n` iterations left. -/
def getSeparatorLoop (sep : String) : Nat → String → String
  | 0, s => s
  | n + 1, s => getSeparatorLoop sep n (s ++ sep)

/-- Function `getSeparator`. -/
def getSeparator (sep : String) : String := getSeparatorLoop sep 80 ""

/-- Method `ActionPrint`; `none` is a run-time panic.  The call of
`printer.LogOutputFile` goes to the logger and leaves the writer as it is. -/
def ActionPrint (d : Deps) (pp : PrettyPrinter) (opaSessionObj : OPASessionObj) :
    Option PrettyPrinter :=
  let pp := pp.display Style.Fprintf ("\n" ++ getSeparator "^" ++ "\n") []
  let sortedControlIDs := d.getSortedControlsIDs opaSessionObj.Report.SummaryDetails.Controls
  let pp :=
    match pp.viewType with
    | ViewTypes.ControlViewType =>
      printResults d pp opaSessionObj.Report.SummaryDetails.Controls
        opaSessionObj.AllResources sortedControlIDs
    | ViewTypes.ResourceViewType =>
      if pp.verboseMode then d.resourceTable pp opaSessionObj else pp
  match printSummaryTable d pp opaSessionObj.Report.SummaryDetails sortedControlIDs with
  | none => none
  | some pp => some (d.printAttackTracks pp opaSessionObj)

/-! ## Reading counts back from a row -/

/-- Decimal value of a string of digits, most significant first, continuing from
`acc`; `none` when a character is not a digit. -/
def parseDigits : List Char → Nat → Option Nat
  | [], acc => some acc
  | c :: cs, acc => if c.isDigit then parseDigits cs (acc * 10 + (c.toNat - 48)) else none

/-- The count shown in a cell: the number its decimal digits denote. -/
def parseCount (cell : String) : Option Nat :=
  match cell.data with
  | [] => none
  | cs => parseDigits cs 0

/-- The count in column `col` of a row; a cell that is not a number counts as `0`. -/
def cellCount (col : Nat) (row : List String) : Nat := (parseCount (row.getD col "")).getD 0

/-- Sum of column `col` over the rows of a table. -/
def columnSum (col : Nat) (rows : List (List String)) : Nat := (rows.map (cellCount col)).sum

/-- The identifiers in the order the loops of `printResults` and `printSummaryTable`
visit them: buckets last to first, each bucket front to back. -/
def visitOrder (sortedControlIDs : List (List String)) : List String :=
  sortedControlIDs.reverse.flatten

/-! ## What a step writes -/

/-- The printer with an empty writer: used to read off what a step writes. -/
def PrettyPrinter.blank (pp : PrettyPrinter) : PrettyPrinter := { pp with writer := [] }

/-- The printer after the writes `out`. -/
def PrettyPrinter.emit (pp : PrettyPrinter) (out : List Out) : PrettyPrinter :=
  { pp with writer := pp.writer ++ out }

/-- Format string of a write. -/
def Out.format : Out → String
  | Out.display _ format _ => format
  | Out.table _ => ""

/-- Arguments of a write. -/
def Out.args : Out → List Arg
  | Out.display _ _ args => args
  | Out.table _ => []

/-- Helper a write went through; `none` for a rendered table. -/
def Out.style : Out → Option Style
  | Out.display style _ _ => some style
  | Out.table _ => none

/-- The five writes that make up the summary line of a control. -/
def summaryLine (controlSummary : IControlSummary) : List Out :=
  [Out.display Style.SimpleDisplay "Summary - " [],
   Out.display Style.SuccessDisplay "Passed:%v   "
     [Arg.num controlSummary.NumberOfResources.Passed],
   Out.display Style.WarningDisplay "Excluded:%v   "
     [Arg.num controlSummary.NumberOfResources.Excluded],
   Out.display Style.FailureDisplay "Failed:%v   "
     [Arg.num controlSummary.NumberOfResources.Failed],
   Out.display Style.InfoDisplay "Total:%v\n" [Arg.num controlSummary.NumberOfResources.All]]

/-- The write of the remediation line. -/
def remediationWrite (text : String) : Out :=
  Out.display Style.DescriptionDisplay "Remediation: %v\n" [Arg.str text]

/-- The write of the reason line. -/
def reasonWrite (text : String) : Out :=
  Out.display Style.WarningDisplay "Reason: %v\n" [Arg.str text]

/-- The write of the title line of a group. -/
def titleWrite (indent title : String) : Out :=
  Out.display Style.SimpleDisplay "%s%s\n" [Arg.str indent, Arg.str title]

/-- Reference: what one group writes, from the specification: the title line when the
title is non-empty, then the composed resource strings in ascending order, with the
indent doubled under a title. -/
def groupOut (indent title : String) (rsc : List WorkloadSummary) : List Out :=
  (if title = "" then [] else [titleWrite indent title]) ++
    (sortStrings (rsc.map (resourceLine (if title = "" then indent else indent ++ indent)))).map
      resourceWrite

/-- Reference: what the groups of one status write, in the order they are visited. -/
def groupedOut (workloads : GroupedWorkloads) : List Out :=
  workloads.flatMap (fun entry => groupOut "  " entry.1 entry.2)

/-- Reference: the section of one status, from the specification: nothing for an empty
grouping, otherwise the header followed by the groups. -/
def statusSection (header : Out) (workloads : GroupedWorkloads) : List Out :=
  if workloads = [] then [] else header :: groupedOut workloads

/-- The header writes of `printResources`. -/
def failedHeader : Out := Out.display Style.FailureDisplay "Failed:\n" []

/-- The header of the excluded section. -/
def excludedHeader : Out := Out.display Style.WarningDisplay "Excluded:\n" []

/-- The header of the passed section. -/
def passedHeader : Out := Out.display Style.SuccessDisplay "Passed:\n" []

/-- What `printTitle` writes for a control. -/
def titleOut (d : Deps) (pp : PrettyPrinter) (controlSummary : IControlSummary) : List Out :=
  (printTitle d pp.blank controlSummary).writer

/-- What `printResources` writes for a control. -/
def resourcesOut (d : Deps) (pp : PrettyPrinter) (controlSummary : IControlSummary)
    (allResources : List (String × IMetadata)) : List Out :=
  (printResources d pp.blank controlSummary allResources).writer

/-- What `printSummary` writes for a control. -/
def summaryOut (pp : PrettyPrinter) (c : String) (controlSummary : IControlSummary) :
    List Out :=
  (printSummary pp.blank c controlSummary).writer

/-- What `printResults` writes for the control `c`: its title, its grouped resources and
its summary. -/
def controlOut (d : Deps) (pp : PrettyPrinter) (controls : ControlSummaries)
    (allResources : List (String × IMetadata)) (c : String) : List Out :=
  titleOut d pp (controls.GetControl c) ++
    resourcesOut d pp (controls.GetControl c) allResources ++
    summaryOut pp c (controls.GetControl c)

/-- The write of one informational annotation in `printInfo`. -/
def infoWrite (i : infoStars) : Out :=
  Out.display Style.InfoDisplay (i.stars ++ " " ++ i.info ++ "\n") []

/-- The non-empty rows of a list of rows, in the same order. -/
def nonEmptyRows (rows : List (List String)) : List (List String) :=
  rows.filter (fun row => decide (row.length > 0))

/-- Reference: the rows of the summary table, from the specification: the generated
rows of the controls in visit order, the empty rows left out. -/
def summaryRows (d : Deps) (pp : PrettyPrinter) (summaryDetails : SummaryDetails)
    (sortedControlIDs : List (List String)) : List (List String) :=
  nonEmptyRows ((visitOrder sortedControlIDs).map (fun c =>
    d.generateRow (summaryDetails.Controls.GetControl c)
      (d.mapInfoToPrintInfo summaryDetails.Controls) (printAllOf pp summaryDetails)))

/-- The table `printSummaryTable` renders. -/
def summaryTableOf (d : Deps) (pp : PrettyPrinter) (summaryDetails : SummaryDetails)
    (sortedControlIDs : List (List String)) : Table :=
  { autoWrapText := false, header := d.getControlTableHeaders, headerLine := true,
    columnAlignment := d.getColumnsAlignments,
    rows := summaryRows d pp summaryDetails sortedControlIDs,
    footer := generateFooter d summaryDetails }

/-- The writes of `printSummaryTable` that precede the table. -/
def countersOut (summaryDetails : SummaryDetails) : List Out :=
  [Out.display Style.InfoTextDisplay
     ("\n" ++ controlCountersForSummary summaryDetails.NumberOfControls ++ "\n") [],
   Out.display Style.InfoTextDisplay
     (renderSeverityCountersSummary summaryDetails.GetResourcesSeverityCounters ++ "\n\n") []]

/-- The writes of `printSummaryTable` that follow the table. -/
def trailerOut (d : Deps) (summaryDetails : SummaryDetails) : List Out :=
  Out.display Style.InfoTextDisplay (frameworksScoresRef d summaryDetails.ListFrameworks) [] ::
    (d.mapInfoToPrintInfo summaryDetails.Controls).map infoWrite

/-- The controls whose row `generateRow` of the specification does not suppress, in
visit order. -/
def shownControls (pp : PrettyPrinter) (summaryDetails : SummaryDetails)
    (sortedControlIDs : List (List String)) : List String :=
  (visitOrder sortedControlIDs).filter (fun c =>
    !((summaryDetails.Controls.GetControl c).GetStatus.IsSkipped &&
      !(printAllOf pp summaryDetails)))

/-! ## Rendering of a format string -/

/-- Flag characters of a directive in Go's package `fmt`. -/
def isFmtFlag (c : Char) : Bool :=
  c == '#' || c == '0' || c == '+' || c == '-' || c == ' '

/-- Characters that start a width, a precision or an argument index in a directive. -/
def isFmtWidthStart (c : Char) : Bool :=
  c.isDigit || c == '.' || c == '*' || c == '['

/-- Text that Go's `fmt.Fprintf(w, format)` writes when it is called without operands,
as the colour helpers are at `cautils.SimpleDisplay(pp.writer, resources[i]+"\n")`.
Outside a directive the text is copied; a `%` opens a directive, whose flags are
skipped; the verb `%` writes a percent sign, any other verb `c` finds no operand and
writes `%!c(MISSING)`, and a directive cut off by the end of the format writes
`%!(NOVERB)`.  The first argument tells whether a directive is open.  Directives with a
width, a precision or an argument index are not rendered (`none`). -/
def fprintfScan : Bool → List Char → Option (List Char)
  | false, [] => some []
  | false, c :: cs =>
    if c = '%' then fprintfScan true cs else (fprintfScan false cs).map (fun out => c :: out)
  | true, [] => some "%!(NOVERB)".data
  | true, c :: cs =>
    if isFmtFlag c then fprintfScan true cs
    else if isFmtWidthStart c then none
    else if c = '%' then (fprintfScan false cs).map (fun out => '%' :: out)
    else (fprintfScan false cs).map (fun out => "%!".data ++ c :: "(MISSING)".data ++ out)

/-- Go's `fmt.Fprintf(w, format)` without operands: the text written. -/
def fprintfNoOperands (format : String) : Option String :=
  (fprintfScan false format.data).map String.mk

/-! ## Sample inputs -/

/-- A workload with one related object in namespace `ns1`. -/
def sampleWorkload : WorkloadSummary :=
  { resource :=
      { GetObjectType := TypeWorkloadObject, GetKind := "Pod", GetName := "p1",
        GetRelatedObjects :=
          [{ GetNamespace := "ns1", GetKind := "Deployment", GetName := "d1" }] },
    status := ScanningStatus.StatusFailed }

/-- A resource that is not of workload-object type, with the same related object. -/
def sampleListObject : WorkloadSummary :=
  { resource :=
      { GetObjectType := "list", GetKind := "List", GetName := "l1",
        GetRelatedObjects :=
          [{ GetNamespace := "ns1", GetKind := "Deployment", GetName := "d1" }] },
    status := ScanningStatus.StatusFailed }

/-- A workload whose related object has a name that ends with a comma and a space. -/
def sampleWorkloadSeparatorName : WorkloadSummary :=
  { resource :=
      { GetObjectType := TypeWorkloadObject, GetKind := "Pod", GetName := "p1",
        GetRelatedObjects :=
          [{ GetNamespace := "ns1", GetKind := "Deployment", GetName := "d1, " }] },
    status := ScanningStatus.StatusFailed }

/-- A printer that has written nothing yet. -/
def samplePrinter : PrettyPrinter :=
  { writer := [], stdout := [], formatVersion := "v2", viewType := ViewTypes.ControlViewType,
    verboseMode := false, printAttackTree := false }

/-- A failed control without remediation text. -/
def sampleFailedControl : IControlSummary :=
  { GetID := "C-0001", GetName := "Forbidden Container Registries",
    GetDescription := "In cases where the cluster has access to forbidden registries",
    GetRemediation := "",
    GetStatus :=
      { Status := ScanningStatus.StatusFailed, Info := "", IsSkipped := false, IsFailed := true },
    NumberOfResources := { Passed := 0, Excluded := 0, Failed := 1, Skipped := 0, All := 1 },
    GetScore := { bits := 0 } }

/-- A skipped control. -/
def sampleSkippedControl : IControlSummary :=
  { GetID := "C-0002", GetName := "Exec into container",
    GetDescription := "Attackers with relevant permissions can run commands",
    GetRemediation := "Remove exec permissions",
    GetStatus :=
      { Status := ScanningStatus.StatusSkipped, Info := "no host sensor", IsSkipped := true,
        IsFailed := false },
    NumberOfResources := { Passed := 0, Excluded := 0, Failed := 0, Skipped := 0, All := 0 },
    GetScore := { bits := 0 } }

/-- A pod named `name` without related objects. -/
def samplePod (name : String) : WorkloadSummary :=
  { resource :=
      { GetObjectType := TypeWorkloadObject, GetKind := "Pod", GetName := name,
        GetRelatedObjects := [] },
    status := ScanningStatus.StatusFailed }

/-- Failed workloads of one control grouped by namespace, visited `ns1` first. -/
def sampleGroupsOrderA : GroupedWorkloads :=
  [("ns1", [samplePod "a"]), ("ns2", [samplePod "b"])]

/-- The same map, visited `ns2` first. -/
def sampleGroupsOrderB : GroupedWorkloads :=
  [("ns2", [samplePod "b"]), ("ns1", [samplePod "a"])]

/-- A second failed control; the resource that fails it is the one that fails
`sampleFailedControl`. -/
def sampleFailedControl2 : IControlSummary :=
  { GetID := "C-0004", GetName := "Resources memory limit and request",
    GetDescription := "This control identifies all Pods without memory limits",
    GetRemediation := "Set the memory limit",
    GetStatus :=
      { Status := ScanningStatus.StatusFailed, Info := "", IsSkipped := false, IsFailed := true },
    NumberOfResources := { Passed := 0, Excluded := 0, Failed := 1, Skipped := 0, All := 1 },
    GetScore := { bits := 0 } }

/-- Collaborators: no resources to list, `generateRow` of the specification. -/
def sampleDeps : Deps :=
  { GetControlLink := fun id => "https://hub.armosec.io/docs/" ++ id,
    listResultSummary := fun _ _ => [],
    workloadSummaryFailed := fun w => decide (w.status = ScanningStatus.StatusFailed),
    workloadSummaryExclude := fun w => decide (w.status = ScanningStatus.StatusExcluded),
    workloadSummaryPassed := fun w => decide (w.status = ScanningStatus.StatusPassed),
    groupByNamespaceOrKind := fun _ _ => [],
    mapInfoToPrintInfo := fun _ => [],
    generateRow := generateRow (fun _ => "0.00") (fun _ => "High"),
    getControlTableHeaders :=
      ["CONTROL NAME", "SEVERITY", "FAILED RESOURCES", "EXCLUDED RESOURCES", "ALL RESOURCES",
       "% RISK-SCORE"],
    getColumnsAlignments := [],
    getSortedControlsIDs := fun _ => [["C-0001", "C-0004"]],
    resourceTable := fun pp _ => pp,
    printAttackTracks := fun pp _ => pp,
    fmt2f := fun _ => "0.00" }

/-- Two failed controls. -/
def sampleControls : ControlSummaries :=
  { GetControl := fun id => if id = "C-0001" then sampleFailedControl else sampleFailedControl2 }

/-- A scan of one resource that fails both controls: each control counts one failed
resource out of one, and so does the scan as a whole. -/
def sampleSummary : SummaryDetails :=
  { Controls := sampleControls,
    NumberOfControls := { Passed := 0, Excluded := 0, Failed := 2, Skipped := 0, All := 2 },
    NumberOfResources := { Passed := 0, Excluded := 0, Failed := 1, Skipped := 0, All := 1 },
    GetResourcesSeverityCounters :=
      { NumberOfCriticalSeverity := 0, NumberOfHighSeverity := 1, NumberOfMediumSeverity := 0,
        NumberOfLowSeverity := 0 },
    Score := { bits := 0 },
    ListFrameworks := [] }

/-- The two controls in one severity bucket. -/
def sampleBuckets : List (List String) := [["C-0001", "C-0004"]]

/-- A scan that evaluated no control. -/
def sampleEmptySummary : SummaryDetails :=
  { Controls := sampleControls,
    NumberOfControls := { Passed := 0, Excluded := 0, Failed := 0, Skipped := 0, All := 0 },
    NumberOfResources := { Passed := 0, Excluded := 0, Failed := 0, Skipped := 0, All := 0 },
    GetResourcesSeverityCounters :=
      { NumberOfCriticalSeverity := 0, NumberOfHighSeverity := 0, NumberOfMediumSeverity := 0,
        NumberOfLowSeverity := 0 },
    Score := { bits := 0 },
    ListFrameworks := [] }

/-- A failed control with two failed resources. -/
def sampleNamespacesControl : IControlSummary :=
  { GetID := "C-0009", GetName := "Resource limits",
    GetDescription := "CPU and memory resources should have a limit set",
    GetRemediation := "Define LimitRange and Resource Limits",
    GetStatus :=
      { Status := ScanningStatus.StatusFailed, Info := "", IsSkipped := false, IsFailed := true },
    NumberOfResources := { Passed := 0, Excluded := 0, Failed := 2, Skipped := 0, All := 2 },
    GetScore := { bits := 0 } }

/-- A grouping by namespace whose map is visited in the order `visit`: every group keeps
the workloads the filter accepts, empty groups are left out. -/
def sampleGrouping (visit : GroupedWorkloads) (_workloads : List WorkloadSummary)
    (f : WorkloadSummary → Bool) : GroupedWorkloads :=
  (visit.map (fun e => (e.1, e.2.filter f))).filter (fun e => !e.2.isEmpty)

/-- One run of the printer on the sample session, the grouping maps being visited in the
order `visit`. -/
def sampleRun (visit : GroupedWorkloads) : Deps :=
  { sampleDeps with
    listResultSummary := fun _ _ => [samplePod "a", samplePod "b"],
    groupByNamespaceOrKind := sampleGrouping visit,
    getSortedControlsIDs := fun _ => [["C-0009"]] }

/-- A session with one control and two failed pods, one in `ns1` and one in `ns2`. -/
def sampleSession : OPASessionObj :=
  { Report :=
      { SummaryDetails :=
          { Controls := { GetControl := fun _ => sampleNamespacesControl },
            NumberOfControls :=
              { Passed := 0, Excluded := 0, Failed := 1, Skipped := 0, All := 1 },
            NumberOfResources :=
              { Passed := 0, Excluded := 0, Failed := 2, Skipped := 0, All := 2 },
            GetResourcesSeverityCounters :=
              { NumberOfCriticalSeverity := 0, NumberOfHighSeverity := 2,
                NumberOfMediumSeverity := 0, NumberOfLowSeverity := 0 },
            Score := { bits := 0 },
            ListFrameworks := [] } },
    AllResources := [] }

/-! # Theorems -/

/-! ## Strings -/

theorem intercalate_go_append (sep : String) (l : List String) (acc : String) :
    acc ++ sep ++ appendEach sep l = String.intercalate.go acc sep l ++ sep := by
  induction l generalizing acc with
  | nil => simp [String.intercalate.go, appendEach]
  | cons b bs ih =>
    simp only [String.intercalate.go, appendEach]
    rw [← ih]
    simp [String.append_assoc]

theorem appendEach_cons_eq (sep a : String) (as : List String) :
    appendEach sep (a :: as) = sep.intercalate (a :: as) ++ sep := by
  simp only [appendEach, String.intercalate]
  exact intercalate_go_append sep as a

theorem intercalate_go_last (sep : String) (l : List String) (acc : String) (f : String) :
    ∃ Z, String.intercalate.go acc sep (l ++ [f]) = Z ++ f := by
  induction l generalizing acc with
  | nil => exact ⟨acc ++ sep, by simp [String.intercalate.go]⟩
  | cons b bs ih => simpa [String.intercalate.go] using ih (acc ++ sep ++ b)

theorem intercalate_last (sep : String) (l : List String) (h : l ≠ []) :
    ∃ Z, sep.intercalate l = Z ++ l.getLast h := by
  obtain ⟨init, f, rfl⟩ : ∃ init f, l = init ++ [f] :=
    ⟨l.dropLast, l.getLast h, (List.dropLast_append_getLast h).symm⟩
  rw [List.getLast_append_singleton]
  cases init with
  | nil => exact ⟨"", by simp [String.intercalate, String.intercalate.go]⟩
  | cons a as => simpa [String.intercalate] using intercalate_go_last sep as a f

theorem sliceDropLast2_append_sep (x : String) : sliceDropLast2 (x ++ ", ") = x := by
  have h := String.extract_of_valid [] x.data ", ".data
  simp only [List.nil_append, String.utf8Len_nil, Nat.zero_add] at h
  have h2 : (x ++ ", ").utf8ByteSize - 2 = String.utf8Len x.data := by
    show String.utf8Len (x ++ ", ").data - 2 = _
    rw [String.data_append, String.utf8Len_append]
    have : String.utf8Len ", ".data = 2 := by decide
    omega
  unfold sliceDropLast2
  rw [h2]
  exact h

theorem append_sep_ne_empty (x : String) : x ++ ", " ≠ "" := by
  intro h
  have h2 := congrArg String.length h
  rw [String.length_append] at h2
  have h3 : ", ".length = 2 := by decide
  have h4 : "".length = 0 := by decide
  omega

theorem suffix_sep_dash (Y N : List Char) :
    [',', ' '] <:+ Y ++ [' ', '-', ' '] ++ N ↔ [',', ' '] <:+ N := by
  rw [← List.reverse_prefix, ← @List.reverse_prefix Char [',', ' '] N]
  simp only [List.reverse_append, List.reverse_cons, List.reverse_nil, List.nil_append,
    List.cons_append, List.append_assoc]
  rcases N.reverse with _ | ⟨c, _ | ⟨e, t⟩⟩
  · simp [List.cons_prefix_cons]
  · simp [List.cons_prefix_cons]
  · simp [List.cons_prefix_cons]

theorem endsWithSeparator_entry (Y K N : String) :
    endsWithSeparator (Y ++ (K ++ " - " ++ N)) ↔ endsWithSeparator N := by
  unfold endsWithSeparator
  have h := suffix_sep_dash (Y.data ++ K.data) N.data
  have e1 : ", ".data = [',', ' '] := rfl
  have e2 : " - ".data = [' ', '-', ' '] := rfl
  simp only [String.data_append, e1, e2] at *
  simpa [List.append_assoc] using h

/-! ## `generateRelatedObjectsStr` -/

theorem relatedObjectsLoop_succ (rs : List RelatedObject) (i : Nat) (acc : String) :
    relatedObjectsLoop rs (i + 1) acc = acc ++ appendEach ", " (rs.map relatedEntry) := by
  induction rs generalizing i acc with
  | nil => simp [relatedObjectsLoop, appendEach]
  | cons r rs ih =>
    simp only [relatedObjectsLoop, List.map, appendEach]
    rw [ih]
    simp [relatedEntry, String.append_assoc]

theorem relatedObjectsLoop_zero (r : RelatedObject) (rs : List RelatedObject) :
    relatedObjectsLoop (r :: rs) 0 "" = relatedInner r rs ++ ", " := by
  simp only [relatedObjectsLoop, relatedInner]
  rw [relatedObjectsLoop_succ, List.map, String.append_assoc (namespacePart r),
    ← appendEach_cons_eq]
  by_cases h : r.GetNamespace = ""
  · simp [namespacePart, h, appendEach, relatedEntry, String.append_assoc]
  · simp [namespacePart, h, appendEach, relatedEntry, String.append_assoc]

theorem generateRelatedObjectsStr_cons (workload : WorkloadSummary) (r : RelatedObject)
    (rs : List RelatedObject) (ht : workload.resource.GetObjectType = TypeWorkloadObject)
    (hr : workload.resource.GetRelatedObjects = r :: rs) :
    generateRelatedObjectsStr workload = " [" ++ relatedInner r rs ++ "]" := by
  unfold generateRelatedObjectsStr
  simp only [ht, if_true, hr, relatedObjectsLoop_zero]
  rw [if_pos (append_sep_ne_empty _), sliceDropLast2_append_sep]

theorem generateRelatedObjectsStr_empty (workload : WorkloadSummary)
    (h : workload.resource.GetObjectType ≠ TypeWorkloadObject ∨
      workload.resource.GetRelatedObjects = []) :
    generateRelatedObjectsStr workload = "" := by
  unfold generateRelatedObjectsStr
  by_cases ht : workload.resource.GetObjectType = TypeWorkloadObject
  · rcases h with h | h
    · exact absurd ht h
    · simp [ht, h, relatedObjectsLoop]
  · simp [ht]

theorem generateRelatedObjectsStr_eq_ref (workload : WorkloadSummary) :
    generateRelatedObjectsStr workload = relatedObjectsStrRef workload := by
  by_cases ht : workload.resource.GetObjectType = TypeWorkloadObject
  · cases hr : workload.resource.GetRelatedObjects with
    | nil =>
      rw [generateRelatedObjectsStr_empty workload (Or.inr hr)]
      simp [relatedObjectsStrRef, ht, hr]
    | cons r rs =>
      rw [generateRelatedObjectsStr_cons workload r rs ht hr]
      simp [relatedObjectsStrRef, ht, hr]
  · rw [generateRelatedObjectsStr_empty workload (Or.inl ht)]
    simp [relatedObjectsStrRef, ht]

theorem relatedInner_endsWithSeparator (r : RelatedObject) (rs : List RelatedObject) :
    endsWithSeparator (relatedInner r rs) ↔
      endsWithSeparator ((r :: rs).getLast (List.cons_ne_nil r rs)).GetName := by
  have hne : (r :: rs).map relatedEntry ≠ [] := by simp
  obtain ⟨Z, hZ⟩ := intercalate_last ", " ((r :: rs).map relatedEntry) hne
  have hl : ((r :: rs).map relatedEntry).getLast hne =
      relatedEntry ((r :: rs).getLast (List.cons_ne_nil r rs)) := by
    rw [List.getLast_map]
  unfold relatedInner
  rw [hZ, hl, ← String.append_assoc]
  exact endsWithSeparator_entry _ _ _

/-- C1, as stated, fails: the related object `Deployment` named `d1, ` in namespace
`ns1` gives the suffix ` [Namespace - ns1, Deployment - d1, ]`, whose bracketed text
ends with the comma-and-space separator. -/
theorem generateRelatedObjectsStr_separator_kept :
    generateRelatedObjectsStr sampleWorkloadSeparatorName =
        " [" ++ "Namespace - ns1, Deployment - d1, " ++ "]" ∧
      endsWithSeparator "Namespace - ns1, Deployment - d1, " := by
  constructor
  · decide
  · decide

/-- C1 (amended): `generateRelatedObjectsStr` equals the reference definition.  For a
resource that is not of workload-object type, or with no related object, the result is
empty.  For a workload-object resource with related objects `r1 :: rest` the result is
` [` ++ P ++ K1 ++ `, ` ++ ... ++ `, ` ++ Kn ++ `]` with one bracket pair, the
namespace part P taken from `r1` only and the separator appended after Kn removed; the
bracketed text ends with the separator exactly when the name of the last related object
does.  For the single related object (`ns1`, `Deployment`, `d1`) the result is
` [Namespace - ns1, Deployment - d1]`. -/
theorem generateRelatedObjectsStr_spec (workload : WorkloadSummary) :
    generateRelatedObjectsStr workload = relatedObjectsStrRef workload ∧
    (workload.resource.GetObjectType ≠ TypeWorkloadObject ∨
        workload.resource.GetRelatedObjects = [] →
      generateRelatedObjectsStr workload = "") ∧
    (∀ (r1 : RelatedObject) (rest : List RelatedObject),
      workload.resource.GetObjectType = TypeWorkloadObject →
      workload.resource.GetRelatedObjects = r1 :: rest →
        generateRelatedObjectsStr workload = " [" ++ relatedInner r1 rest ++ "]" ∧
        (endsWithSeparator (relatedInner r1 rest) ↔
          endsWithSeparator ((r1 :: rest).getLast (List.cons_ne_nil r1 rest)).GetName)) ∧
    (workload.resource.GetObjectType = TypeWorkloadObject →
      workload.resource.GetRelatedObjects =
        [{ GetNamespace := "ns1", GetKind := "Deployment", GetName := "d1" }] →
      generateRelatedObjectsStr workload = " [Namespace - ns1, Deployment - d1]") := by
  refine ⟨generateRelatedObjectsStr_eq_ref workload, generateRelatedObjectsStr_empty workload,
    ?_, ?_⟩
  · intro r1 rest ht hr
    exact ⟨generateRelatedObjectsStr_cons workload r1 rest ht hr,
      relatedInner_endsWithSeparator r1 rest⟩
  · intro ht hr
    rw [generateRelatedObjectsStr_cons workload _ _ ht hr]
    decide

/-- Witness of C1 (amended) at `sampleWorkload` and `sampleListObject`. -/
theorem generateRelatedObjectsStr_spec_witness :
    generateRelatedObjectsStr sampleWorkload = " [Namespace - ns1, Deployment - d1]" ∧
      generateRelatedObjectsStr sampleListObject = "" ∧
      generateRelatedObjectsStr sampleWorkload =
        " [" ++ relatedInner
          { GetNamespace := "ns1", GetKind := "Deployment", GetName := "d1" } [] ++ "]" ∧
      ¬ endsWithSeparator
        (relatedInner { GetNamespace := "ns1", GetKind := "Deployment", GetName := "d1" } []) :=
  ⟨(generateRelatedObjectsStr_spec sampleWorkload).2.2.2 rfl rfl,
    (generateRelatedObjectsStr_spec sampleListObject).2.1 (Or.inl (by decide)),
    ((generateRelatedObjectsStr_spec sampleWorkload).2.2.1 _ _ rfl rfl).1,
    fun h => absurd (((generateRelatedObjectsStr_spec sampleWorkload).2.2.1 _ _ rfl rfl).2.1 h)
      (by decide)⟩

/-! ## Writes -/

theorem emit_emit (pp : PrettyPrinter) (a b : List Out) :
    (pp.emit a).emit b = pp.emit (a ++ b) := by
  simp [PrettyPrinter.emit, List.append_assoc]

theorem emit_nil (pp : PrettyPrinter) : pp.emit [] = pp := by
  simp [PrettyPrinter.emit]

theorem display_eq_emit (pp : PrettyPrinter) (style : Style) (format : String)
    (args : List Arg) : pp.display style format args = pp.emit [Out.display style format args] :=
  rfl

theorem emit_writer (pp : PrettyPrinter) (a : List Out) : (pp.emit a).writer = pp.writer ++ a :=
  rfl

theorem blank_emit_writer (pp : PrettyPrinter) (a : List Out) : (pp.blank.emit a).writer = a := by
  simp [PrettyPrinter.emit, PrettyPrinter.blank]

theorem emit_verboseMode (pp : PrettyPrinter) (a : List Out) :
    (pp.emit a).verboseMode = pp.verboseMode :=
  rfl

theorem blank_verboseMode (pp : PrettyPrinter) : pp.blank.verboseMode = pp.verboseMode :=
  rfl

theorem emit_blank (pp : PrettyPrinter) (a : List Out) : (pp.emit a).blank = pp.blank :=
  rfl

/-! ## `printSummary` and `printTitle` -/

theorem printSummary_eq_emit (pp : PrettyPrinter) (c : String) (cs : IControlSummary) :
    printSummary pp c cs =
      pp.emit (if cs.GetStatus.IsSkipped then []
        else summaryLine cs ++
          ((if cs.GetStatus.IsFailed then [remediationWrite cs.GetRemediation] else []) ++
            [Out.display Style.DescriptionDisplay "\n" []])) := by
  unfold printSummary
  by_cases hs : cs.GetStatus.IsSkipped = true
  · simp [hs, emit_nil]
  · by_cases hf : cs.GetStatus.IsFailed = true
    · simp [hs, hf, display_eq_emit, emit_emit, summaryLine, remediationWrite]
    · simp [hs, hf, display_eq_emit, emit_emit, summaryLine]

/-- C9: for a control whose status is Skipped `printSummary` writes nothing; for any
other control it writes the summary line, one line made of five writes that carry the
passed, excluded, failed and total counts in that order, followed only by writes of the
description helper (the remediation line and the blank line). -/
theorem printSummary_summary_line (pp : PrettyPrinter) (controlName : String)
    (controlSummary : IControlSummary) :
    (controlSummary.GetStatus.IsSkipped = true →
      printSummary pp controlName controlSummary = pp) ∧
    (controlSummary.GetStatus.IsSkipped = false →
      ∃ tail : List Out,
        printSummary pp controlName controlSummary =
          pp.emit (summaryLine controlSummary ++ tail) ∧
        (∀ o ∈ tail, o.style = some Style.DescriptionDisplay) ∧
        (∀ o ∈ summaryLine controlSummary, o.style ≠ some Style.DescriptionDisplay)) ∧
    String.join ((summaryLine controlSummary).map Out.format) =
      "Summary - Passed:%v   Excluded:%v   Failed:%v   Total:%v\n" ∧
    (summaryLine controlSummary).flatMap Out.args =
      [Arg.num controlSummary.NumberOfResources.Passed,
       Arg.num controlSummary.NumberOfResources.Excluded,
       Arg.num controlSummary.NumberOfResources.Failed,
       Arg.num controlSummary.NumberOfResources.All] := by
  refine ⟨?_, ?_, ?_, ?_⟩
  · intro hs
    rw [printSummary_eq_emit, hs]
    simp [emit_nil]
  · intro hs
    refine ⟨(if controlSummary.GetStatus.IsFailed then
        [remediationWrite controlSummary.GetRemediation] else []) ++
        [Out.display Style.DescriptionDisplay "\n" []], ?_, ?_, ?_⟩
    · rw [printSummary_eq_emit, hs]
      simp
    · intro o ho
      by_cases hf : controlSummary.GetStatus.IsFailed = true
      · simp [hf, remediationWrite] at ho
        rcases ho with rfl | rfl <;> rfl
      · simp [hf] at ho
        subst ho
        rfl
    · intro o ho
      simp [summaryLine] at ho
      rcases ho with rfl | rfl | rfl | rfl | rfl <;> simp [Out.style]
  · simp [summaryLine, Out.format, String.join]
  · simp [summaryLine, Out.args, List.flatMap]

/-- Witness of C9 at a skipped and at a failed control. -/
theorem printSummary_summary_line_witness :
    printSummary samplePrinter "C-0002" sampleSkippedControl = samplePrinter ∧
      ∃ tail : List Out,
        printSummary samplePrinter "C-0001" sampleFailedControl =
          samplePrinter.emit (summaryLine sampleFailedControl ++ tail) :=
  ⟨(printSummary_summary_line samplePrinter "C-0002" sampleSkippedControl).1 rfl,
    ((printSummary_summary_line samplePrinter "C-0001" sampleFailedControl).2.1 rfl).imp
      (fun _ h => h.1)⟩

/-- C7, evaluated at a failed control whose remediation text is empty: `printSummary`
writes the remediation line all the same, with an empty text. -/
theorem printSummary_empty_remediation_written :
    sampleFailedControl.GetRemediation = "" ∧
      remediationWrite "" ∈ (printSummary samplePrinter "C-0001" sampleFailedControl).writer := by
  constructor
  · rfl
  · decide

/-! ## Optional lines -/

theorem printTitle_reason_line (d : Deps) (pp : PrettyPrinter) (cs : IControlSummary) :
    reasonWrite cs.GetStatus.Info ∈ titleOut d pp cs ↔ cs.GetStatus.Info ≠ "" := by
  unfold titleOut printTitle
  by_cases hi : cs.GetStatus.Info = ""
  · cases hs : cs.GetStatus.Status <;>
      simp [hi, display_eq_emit, emit_emit, blank_emit_writer, reasonWrite]
  · cases hs : cs.GetStatus.Status <;>
      simp [hi, display_eq_emit, emit_emit, blank_emit_writer, reasonWrite]

theorem printSummary_remediation_line (pp : PrettyPrinter) (c : String) (cs : IControlSummary) :
    remediationWrite cs.GetRemediation ∈ summaryOut pp c cs ↔
      (cs.GetStatus.IsSkipped = false ∧ cs.GetStatus.IsFailed = true) := by
  unfold summaryOut
  rw [printSummary_eq_emit, blank_emit_writer]
  cases hs : cs.GetStatus.IsSkipped <;> cases hf : cs.GetStatus.IsFailed <;>
    simp [summaryLine, remediationWrite]

/-! ## Ordering of strings -/

theorem bytesLE_total : ∀ a b : List Nat, bytesLE a b = true ∨ bytesLE b a = true
  | [], _ => Or.inl (by simp [bytesLE])
  | _ :: _, [] => Or.inr (by simp [bytesLE])
  | x :: xs, y :: ys => by
    rcases Nat.lt_trichotomy x y with h | h | h
    · left
      simp [bytesLE, h]
    · subst h
      rcases bytesLE_total xs ys with h2 | h2
      · left
        simp [bytesLE, h2]
      · right
        simp [bytesLE, h2]
    · right
      simp [bytesLE, h]

theorem bytesLE_trans : ∀ a b c : List Nat,
    bytesLE a b = true → bytesLE b c = true → bytesLE a c = true
  | [], _, _, _, _ => by simp [bytesLE]
  | _ :: _, [], _, h, _ => by simp [bytesLE] at h
  | _ :: _, _ :: _, [], _, h => by simp [bytesLE] at h
  | x :: xs, y :: ys, z :: zs, h1, h2 => by
    simp only [bytesLE, Bool.or_eq_true, decide_eq_true_eq, Bool.and_eq_true, beq_iff_eq] at *
    rcases h1 with h1 | ⟨h1, h1r⟩
    · rcases h2 with h2 | ⟨h2, _⟩
      · left
        omega
      · left
        omega
    · rcases h2 with h2 | ⟨h2, h2r⟩
      · left
        omega
      · right
        exact ⟨by omega, bytesLE_trans xs ys zs h1r h2r⟩

theorem goStringLE_total (a b : String) : goStringLE a b ∨ goStringLE b a :=
  bytesLE_total _ _

theorem goStringLE_trans (a b c : String) (h1 : goStringLE a b) (h2 : goStringLE b c) :
    goStringLE a c :=
  bytesLE_trans _ _ _ h1 h2

theorem sortStrings_sorted (l : List String) : List.Sorted goStringLE (sortStrings l) :=
  @List.sorted_insertionSort String goStringLE _ ⟨goStringLE_total⟩ ⟨goStringLE_trans⟩ l

theorem sortStrings_perm (l : List String) : (sortStrings l).Perm l :=
  List.perm_insertionSort goStringLE l

/-! ## `printGroupedResource`, `printGroupedResources`, `printResources` -/

theorem foldl_append_singleton {α β : Type} (f : α → β) (l : List α) (acc : List β) :
    l.foldl (fun acc r => acc ++ [f r]) acc = acc ++ l.map f := by
  induction l generalizing acc with
  | nil => simp
  | cons a as ih => simp [ih]

theorem foldl_display (l : List String) (pp : PrettyPrinter) :
    l.foldl (fun pp r => pp.display Style.SimpleDisplay (r ++ "\n") []) pp =
      pp.emit (l.map resourceWrite) := by
  induction l generalizing pp with
  | nil => simp [emit_nil]
  | cons a as ih =>
    simp only [List.foldl_cons, List.map_cons]
    rw [ih, display_eq_emit, emit_emit]
    rfl

theorem printGroupedResource_eq_emit (pp : PrettyPrinter) (indent title : String)
    (rsc : List WorkloadSummary) :
    printGroupedResource pp indent title rsc = pp.emit (groupOut indent title rsc) := by
  unfold printGroupedResource groupOut
  simp only [foldl_display, foldl_append_singleton, List.nil_append]
  by_cases ht : title = ""
  · simp [ht]
  · simp only [ht, ne_eq, not_false_eq_true, if_true, if_false, display_eq_emit, emit_emit]
    rfl

theorem printGroupedResources_eq_emit (workloads : GroupedWorkloads) (pp : PrettyPrinter) :
    printGroupedResources pp workloads = pp.emit (groupedOut workloads) := by
  unfold printGroupedResources groupedOut
  induction workloads generalizing pp with
  | nil => simp [emit_nil]
  | cons e es ih =>
    simp only [List.foldl_cons, List.flatMap_cons]
    rw [ih, printGroupedResource_eq_emit, emit_emit]

/-- The calls `printGroupedResource` issues (with the two-space indent of
`printGroupedResources`): the title call exactly when the title is non-empty, then one
call per workload whose format string is a composed string indent ++ kind ++ ` - ` ++
name ++ ` ` ++ related suffix followed by a newline; the composed strings are handed
over in ascending order and are a permutation of those of the workloads.  This is about
the format strings handed to the helper, not about the text the helper renders from
them. -/
theorem printGroupedResource_calls (pp : PrettyPrinter) (title : String)
    (rsc : List WorkloadSummary) :
    ∃ lines : List String,
      printGroupedResource pp "  " title rsc =
        pp.emit ((if title = "" then [] else [titleWrite "  " title]) ++
          lines.map resourceWrite) ∧
      lines.length = rsc.length ∧
      lines.Perm (rsc.map (fun r =>
        (if title = "" then "  " else "    ") ++ r.resource.GetKind ++ " - " ++
          r.resource.GetName ++ " " ++ generateRelatedObjectsStr r)) ∧
      List.Sorted goStringLE lines := by
  have hind : (if title = "" then "  " else "  " ++ "  ") = (if title = "" then "  " else "    ") := by
    split <;> rfl
  refine ⟨sortStrings (rsc.map (resourceLine (if title = "" then "  " else "    "))),
    ?_, ?_, ?_, ?_⟩
  · rw [printGroupedResource_eq_emit, groupOut, hind]
  · rw [(sortStrings_perm _).length_eq, List.length_map]
  · exact sortStrings_perm _
  · exact sortStrings_sorted _

theorem fprintfScan_no_percent (cs : List Char) (h : '%' ∉ cs) :
    fprintfScan false cs = some cs := by
  induction cs with
  | nil => rfl
  | cons c cs ih =>
    have hc : c ≠ '%' := fun e => h (by simp [e])
    have hcs : '%' ∉ cs := fun e => h (List.mem_cons_of_mem _ e)
    simp [fprintfScan, hc, ih hcs]

theorem fprintfNoOperands_no_percent (format : String) (h : '%' ∉ format.data) :
    fprintfNoOperands format = some format := by
  simp [fprintfNoOperands, fprintfScan_no_percent format.data h]

/-- C8, evaluated at the group with the empty title and the single workload `Pod` named
`50%`: `printGroupedResource` hands the composed string `  Pod - 50% ` and a newline to
the helper as its format string, without operands, so the helper reads `% ` and the
newline as a directive and writes `  Pod - 50%!`, a newline and `(MISSING)`, which is
not the composed string on a line of its own.  The title call of the same function
passes the format `%s%s` and the title as an operand, so a `%` in a title is kept. -/
theorem printGroupedResource_line_as_format :
    resourceLine "  " (samplePod "50%") = "  Pod - 50% " ∧
      (printGroupedResource samplePrinter "  " "" [samplePod "50%"]).writer =
        [Out.display Style.SimpleDisplay "  Pod - 50% \n" []] ∧
      fprintfNoOperands "  Pod - 50% \n" = some "  Pod - 50%!\n(MISSING)" ∧
      fprintfNoOperands "  Pod - 50% \n" ≠ some ("  Pod - 50% " ++ "\n") ∧
      (printGroupedResource samplePrinter "  " "50%" []).writer =
        [Out.display Style.SimpleDisplay "%s%s\n" [Arg.str "  ", Arg.str "50%"]] := by
  refine ⟨?_, ?_, ?_, ?_, ?_⟩
  · decide
  · decide
  · decide
  · decide
  · decide

theorem groupOut_style (indent title : String) (rsc : List WorkloadSummary) :
    ∀ o ∈ groupOut indent title rsc, o.style = some Style.SimpleDisplay := by
  intro o ho
  unfold groupOut at ho
  rcases List.mem_append.1 ho with h | h
  · by_cases ht : title = ""
    · simp [ht] at h
    · simp [ht] at h
      subst h
      rfl
  · obtain ⟨l, _, rfl⟩ := List.mem_map.1 h
    rfl

theorem groupedOut_style (workloads : GroupedWorkloads) :
    ∀ o ∈ groupedOut workloads, o.style = some Style.SimpleDisplay := by
  intro o ho
  unfold groupedOut at ho
  obtain ⟨e, _, he⟩ := List.mem_flatMap.1 ho
  exact groupOut_style _ _ _ o he

theorem mem_statusSection (header o : Out) (workloads : GroupedWorkloads)
    (ho : o ∈ statusSection header workloads) :
    workloads ≠ [] ∧ (o = header ∨ o.style = some Style.SimpleDisplay) := by
  unfold statusSection at ho
  by_cases hw : workloads = []
  · simp [hw] at ho
  · simp only [hw, if_false, List.mem_cons] at ho
    exact ⟨hw, ho.imp id (groupedOut_style workloads o)⟩

theorem header_mem_statusSection (header : Out) (workloads : GroupedWorkloads)
    (hw : workloads ≠ []) : header ∈ statusSection header workloads := by
  simp [statusSection, hw]

theorem printResources_eq_emit (d : Deps) (pp : PrettyPrinter) (cs : IControlSummary)
    (allResources : List (String × IMetadata)) :
    printResources d pp cs allResources =
      pp.emit
        (statusSection failedHeader
            (d.groupByNamespaceOrKind (d.listResultSummary cs allResources)
              d.workloadSummaryFailed) ++
          statusSection excludedHeader
            (d.groupByNamespaceOrKind (d.listResultSummary cs allResources)
              d.workloadSummaryExclude) ++
          statusSection passedHeader
            (if pp.verboseMode then
              d.groupByNamespaceOrKind (d.listResultSummary cs allResources)
                d.workloadSummaryPassed
            else [])) := by
  unfold printResources
  simp only [printGroupedResources_eq_emit, display_eq_emit, emit_emit, emit_verboseMode]
  generalize d.groupByNamespaceOrKind (d.listResultSummary cs allResources)
    d.workloadSummaryFailed = F
  generalize d.groupByNamespaceOrKind (d.listResultSummary cs allResources)
    d.workloadSummaryExclude = E
  generalize (if pp.verboseMode = true then
    d.groupByNamespaceOrKind (d.listResultSummary cs allResources) d.workloadSummaryPassed
    else []) = P
  rcases F with _ | ⟨f, F⟩ <;> rcases E with _ | ⟨e, E⟩ <;> rcases P with _ | ⟨p, P⟩ <;>
    simp [statusSection, emit_emit, emit_nil, failedHeader, excludedHeader, passedHeader]

/-- C6: for every control, `printResources` writes the sections Failed, Excluded, Passed
in this order, each either empty or its header followed by the groups of that status.
The `Failed:` header is written if and only if the failed grouping is a non-empty map,
the `Excluded:` header if and only if the excluded grouping is non-empty, and the
`Passed:` header if and only if verbose mode is on and the passed grouping is non-empty;
the section of a suppressed header is empty, so no resource line of that status is
written. -/
theorem printResources_sections (d : Deps) (pp : PrettyPrinter)
    (controlSummary : IControlSummary) (allResources : List (String × IMetadata)) :
    ∃ failedSection excludedSection passedSection : List Out,
      printResources d pp controlSummary allResources =
        pp.emit (failedSection ++ excludedSection ++ passedSection) ∧
      failedSection =
        (if d.groupByNamespaceOrKind (d.listResultSummary controlSummary allResources)
            d.workloadSummaryFailed = [] then []
          else failedHeader :: groupedOut
            (d.groupByNamespaceOrKind (d.listResultSummary controlSummary allResources)
              d.workloadSummaryFailed)) ∧
      excludedSection =
        (if d.groupByNamespaceOrKind (d.listResultSummary controlSummary allResources)
            d.workloadSummaryExclude = [] then []
          else excludedHeader :: groupedOut
            (d.groupByNamespaceOrKind (d.listResultSummary controlSummary allResources)
              d.workloadSummaryExclude)) ∧
      passedSection =
        (if pp.verboseMode = true ∧
            d.groupByNamespaceOrKind (d.listResultSummary controlSummary allResources)
              d.workloadSummaryPassed ≠ [] then
          passedHeader :: groupedOut
            (d.groupByNamespaceOrKind (d.listResultSummary controlSummary allResources)
              d.workloadSummaryPassed)
          else []) ∧
      (failedHeader ∈ failedSection ++ excludedSection ++ passedSection ↔
        d.groupByNamespaceOrKind (d.listResultSummary controlSummary allResources)
          d.workloadSummaryFailed ≠ []) ∧
      (excludedHeader ∈ failedSection ++ excludedSection ++ passedSection ↔
        d.groupByNamespaceOrKind (d.listResultSummary controlSummary allResources)
          d.workloadSummaryExclude ≠ []) ∧
      (passedHeader ∈ failedSection ++ excludedSection ++ passedSection ↔
        (pp.verboseMode = true ∧
          d.groupByNamespaceOrKind (d.listResultSummary controlSummary allResources)
            d.workloadSummaryPassed ≠ [])) := by
  refine ⟨_, _, _, printResources_eq_emit d pp controlSummary allResources, ?_, ?_, ?_, ?_, ?_, ?_⟩
  · rfl
  · rfl
  · by_cases hv : pp.verboseMode = true
    · by_cases hp : d.groupByNamespaceOrKind (d.listResultSummary controlSummary allResources)
          d.workloadSummaryPassed = []
      · simp [statusSection, hv, hp]
      · simp [statusSection, hv, hp]
    · simp [statusSection, hv]
  · constructor
    · intro h
      rcases List.mem_append.1 h with h | h
      · rcases List.mem_append.1 h with h | h
        · exact (mem_statusSection _ _ _ h).1
        · rcases (mem_statusSection _ _ _ h).2 with h2 | h2
          · exact absurd h2 (by decide)
          · exact absurd h2 (by decide)
      · rcases (mem_statusSection _ _ _ h).2 with h2 | h2
        · exact absurd h2 (by decide)
        · exact absurd h2 (by decide)
    · intro h
      exact List.mem_append_left _ (List.mem_append_left _ (header_mem_statusSection _ _ h))
  · constructor
    · intro h
      rcases List.mem_append.1 h with h | h
      · rcases List.mem_append.1 h with h | h
        · rcases (mem_statusSection _ _ _ h).2 with h2 | h2
          · exact absurd h2 (by decide)
          · exact absurd h2 (by decide)
        · exact (mem_statusSection _ _ _ h).1
      · rcases (mem_statusSection _ _ _ h).2 with h2 | h2
        · exact absurd h2 (by decide)
        · exact absurd h2 (by decide)
    · intro h
      exact List.mem_append_left _ (List.mem_append_right _ (header_mem_statusSection _ _ h))
  · constructor
    · intro h
      rcases List.mem_append.1 h with h | h
      · rcases List.mem_append.1 h with h | h
        · rcases (mem_statusSection _ _ _ h).2 with h2 | h2
          · exact absurd h2 (by decide)
          · exact absurd h2 (by decide)
        · rcases (mem_statusSection _ _ _ h).2 with h2 | h2
          · exact absurd h2 (by decide)
          · exact absurd h2 (by decide)
      · have h3 := (mem_statusSection _ _ _ h).1
        by_cases hv : pp.verboseMode = true
        · simpa [hv] using h3
        · simp [hv] at h3
    · intro h
      apply List.mem_append_right
      apply header_mem_statusSection
      simp [h.1, h.2]

theorem sampleGrouping_perm (ws : List WorkloadSummary) (f : WorkloadSummary → Bool) :
    (sampleGrouping sampleGroupsOrderA ws f).Perm (sampleGrouping sampleGroupsOrderB ws f) := by
  unfold sampleGrouping sampleGroupsOrderA sampleGroupsOrderB
  exact (List.Perm.swap _ _ _).filter _

set_option maxRecDepth 8000 in
/-- C5, evaluated at a control whose failed resources fall into the two group labels
`ns1` and `ns2`: the two visit orders of the same map make `printGroupedResources` write
the group sections in different orders, and two runs of `ActionPrint` on the same
session that differ only in the visit order of the maps write different output. -/
theorem printGroupedResources_order_dependent :
    sampleGroupsOrderA.Perm sampleGroupsOrderB ∧
      (printGroupedResources samplePrinter sampleGroupsOrderA).writer =
        [titleWrite "  " "ns1", resourceWrite "    Pod - a ",
         titleWrite "  " "ns2", resourceWrite "    Pod - b "] ∧
      (printGroupedResources samplePrinter sampleGroupsOrderB).writer =
        [titleWrite "  " "ns2", resourceWrite "    Pod - b ",
         titleWrite "  " "ns1", resourceWrite "    Pod - a "] ∧
      printGroupedResources samplePrinter sampleGroupsOrderA ≠
        printGroupedResources samplePrinter sampleGroupsOrderB ∧
      (∀ (ws : List WorkloadSummary) (f : WorkloadSummary → Bool),
        ((sampleRun sampleGroupsOrderA).groupByNamespaceOrKind ws f).Perm
          ((sampleRun sampleGroupsOrderB).groupByNamespaceOrKind ws f)) ∧
      (ActionPrint (sampleRun sampleGroupsOrderA) samplePrinter sampleSession).isSome = true ∧
      (ActionPrint (sampleRun sampleGroupsOrderB) samplePrinter sampleSession).isSome = true ∧
      ActionPrint (sampleRun sampleGroupsOrderA) samplePrinter sampleSession ≠
        ActionPrint (sampleRun sampleGroupsOrderB) samplePrinter sampleSession := by
  refine ⟨?_, ?_, ?_, ?_, ?_, ?_, ?_, ?_⟩
  · exact List.Perm.swap _ _ _
  · decide
  · decide
  · decide
  · exact sampleGrouping_perm
  · decide
  · decide
  · decide

/-! ## `frameworksScoresToString` -/

theorem intercalate_go_snoc (sep x : String) (l : List String) (acc : String) :
    String.intercalate.go acc sep (l ++ [x]) = acc ++ sep ++ appendEach sep l ++ x := by
  induction l generalizing acc with
  | nil => simp [String.intercalate.go, appendEach]
  | cons b bs ih =>
    have h := ih (acc ++ sep ++ b)
    rw [List.cons_append]
    show String.intercalate.go (acc ++ sep ++ b) sep (bs ++ [x]) = _
    rw [h]
    simp [appendEach, String.append_assoc]

theorem appendEach_append_last (sep x : String) (l : List String) :
    appendEach sep l ++ x = sep.intercalate (l ++ [x]) := by
  cases l with
  | nil => simp [appendEach, String.intercalate, String.intercalate.go]
  | cons a as =>
    rw [List.cons_append]
    show _ = String.intercalate.go a sep (as ++ [x])
    rw [intercalate_go_snoc]
    simp [appendEach, String.append_assoc]

theorem frameworksLoop_eq (d : Deps) (frameworks : List IFrameworkSummary) :
    ∀ (fuel i : Nat) (p : String), i ≤ frameworks.length - 1 → 0 < frameworks.length →
      frameworks.length - 1 - i < fuel →
      frameworksLoop d frameworks fuel i p =
        some (frameworks.length - 1,
          p ++ appendEach ", "
            (((frameworks.take (frameworks.length - 1)).drop i).map (frameworkEntry d))) := by
  intro fuel
  induction fuel with
  | zero => intro i p _ _ h; omega
  | succ fuel ih =>
    intro i p hi hpos hfuel
    unfold frameworksLoop
    by_cases hlt : i < frameworks.length - 1
    · have hi2 : i < frameworks.length := by omega
      have hi3 : i < (frameworks.take (frameworks.length - 1)).length := by
        rw [List.length_take]; omega
      rw [if_pos hlt, List.getElem?_eq_getElem hi2]
      simp only
      rw [ih (i + 1) _ (by omega) hpos (by omega)]
      rw [List.drop_eq_getElem_cons hi3]
      simp [appendEach, List.getElem_take, String.append_assoc]
    · have hi4 : i = frameworks.length - 1 := by omega
      rw [if_neg hlt]
      subst hi4
      have hd : (frameworks.take (frameworks.length - 1)).drop (frameworks.length - 1) = [] := by
        apply List.drop_eq_nil_of_le
        rw [List.length_take]; omega
      simp [hd, appendEach]

theorem frameworksScoresToString_eq_ref (d : Deps) (frameworks : List IFrameworkSummary) :
    frameworksScoresToString d frameworks = some (frameworksScoresRef d frameworks) := by
  match frameworks with
  | [] => simp [frameworksScoresToString, frameworksScoresRef]
  | [f] =>
    by_cases hn : f.GetName = ""
    · simp [frameworksScoresToString, frameworksScoresRef, hn]
    · simp [frameworksScoresToString, frameworksScoresRef, hn]
  | f :: g :: rest =>
    have hlen : (f :: g :: rest).length = rest.length + 2 := by simp
    unfold frameworksScoresToString
    rw [if_neg (by rw [hlen]; omega), if_pos (by rw [hlen]; omega)]
    rw [frameworksLoop_eq d (f :: g :: rest) _ 0 _ (by omega) (by rw [hlen]; omega)
      (by rw [hlen]; omega)]
    simp only [List.drop_zero]
    have hlast : (f :: g :: rest).length - 1 < (f :: g :: rest).length := by rw [hlen]; omega
    rw [List.getElem?_eq_getElem hlast]
    simp only
    have hsplit : (f :: g :: rest) =
        (f :: g :: rest).take ((f :: g :: rest).length - 1) ++
          [(f :: g :: rest)[(f :: g :: rest).length - 1]] := by
      have h1 := List.take_append_drop ((f :: g :: rest).length - 1) (f :: g :: rest)
      rw [List.drop_eq_getElem_cons hlast] at h1
      have h2 : List.drop ((f :: g :: rest).length - 1 + 1) (f :: g :: rest) = [] := by
        apply List.drop_eq_nil_of_le
        omega
      rw [h2] at h1
      exact h1.symm
    have href : frameworksScoresRef d (f :: g :: rest) =
        "FRAMEWORKS: " ++ ", ".intercalate ((f :: g :: rest).map (frameworkEntry d)) ++ "\n" := rfl
    rw [href]
    conv => rhs; rw [hsplit]
    rw [List.map_append, List.map_singleton, ← appendEach_append_last]
    simp [String.append_assoc]

/-- C10: `frameworksScoresToString` never panics (the index `frameworks[i]` after the
loop is in bounds) and equals the reference definition: the empty string for no
framework; `FRAMEWORK name` and a newline for one framework with a non-empty name and
the empty string for one framework with an empty name; for two or more frameworks
`FRAMEWORKS: ` followed by the entries `name (risk: score)` in input order, separated by
a comma and a space, with no separator after the last entry and one final newline. -/
theorem frameworksScoresToString_spec (d : Deps) (frameworks : List IFrameworkSummary) :
    frameworksScoresToString d frameworks = some (frameworksScoresRef d frameworks) ∧
    frameworksScoresRef d [] = "" ∧
    (∀ f : IFrameworkSummary,
      frameworksScoresRef d [f] =
        if f.GetName = "" then "" else "FRAMEWORK " ++ f.GetName ++ "\n") ∧
    (∀ (f g : IFrameworkSummary) (rest : List IFrameworkSummary),
      frameworksScoresRef d (f :: g :: rest) =
        "FRAMEWORKS: " ++
          ", ".intercalate ((f :: g :: rest).map
            (fun x => x.GetName ++ " (risk: " ++ d.fmt2f x.GetScore ++ ")")) ++ "\n") := by
  refine ⟨frameworksScoresToString_eq_ref d frameworks, rfl, ?_, ?_⟩
  · intro f
    by_cases hn : f.GetName = ""
    · simp [frameworksScoresRef, hn]
    · simp [frameworksScoresRef, hn]
  · intro f g rest
    rfl

/-! ## `printResults` -/

theorem printTitle_eq_emit (d : Deps) (pp : PrettyPrinter) (cs : IControlSummary) :
    printTitle d pp cs = pp.emit (titleOut d pp cs) := by
  unfold titleOut printTitle
  by_cases hi : cs.GetStatus.Info = ""
  · cases hs : cs.GetStatus.Status <;>
      simp [hi, display_eq_emit, emit_emit, blank_emit_writer]
  · cases hs : cs.GetStatus.Status <;>
      simp [hi, display_eq_emit, emit_emit, blank_emit_writer]

theorem printResources_eq_emit_out (d : Deps) (pp : PrettyPrinter) (cs : IControlSummary)
    (allResources : List (String × IMetadata)) :
    printResources d pp cs allResources = pp.emit (resourcesOut d pp cs allResources) := by
  unfold resourcesOut
  rw [printResources_eq_emit d pp.blank, blank_emit_writer, blank_verboseMode,
    printResources_eq_emit]

theorem printSummary_eq_emit_out (pp : PrettyPrinter) (c : String) (cs : IControlSummary) :
    printSummary pp c cs = pp.emit (summaryOut pp c cs) := by
  unfold summaryOut
  rw [printSummary_eq_emit pp.blank, blank_emit_writer, printSummary_eq_emit]

theorem controlOut_emit (d : Deps) (pp : PrettyPrinter) (controls : ControlSummaries)
    (allResources : List (String × IMetadata)) (a : List Out) (c : String) :
    controlOut d (pp.emit a) controls allResources c = controlOut d pp controls allResources c :=
  rfl

theorem printResultsBucket_eq_emit (d : Deps) (controls : ControlSummaries)
    (allResources : List (String × IMetadata)) (bucket : List String) (pp : PrettyPrinter) :
    printResultsBucket d controls allResources bucket pp =
      pp.emit (bucket.flatMap (controlOut d pp controls allResources)) := by
  induction bucket generalizing pp with
  | nil => simp [printResultsBucket, emit_nil]
  | cons c rest ih =>
    simp only [printResultsBucket, List.flatMap_cons]
    rw [ih, printTitle_eq_emit, printResources_eq_emit_out, printSummary_eq_emit_out]
    simp only [emit_emit]
    congr 1

theorem take_succ_getD {α : Type} (l : List (List α)) (n : Nat) (h : n < l.length) :
    l.take (n + 1) = l.take n ++ [l.getD n []] := by
  rw [List.take_succ, List.getD_eq_getElem?_getD, List.getElem?_eq_getElem h]
  simp

theorem printResultsFrom_eq_emit (d : Deps) (controls : ControlSummaries)
    (allResources : List (String × IMetadata)) (sortedControlIDs : List (List String)) :
    ∀ (n : Nat) (pp : PrettyPrinter), n ≤ sortedControlIDs.length →
      printResultsFrom d controls allResources sortedControlIDs n pp =
        pp.emit ((visitOrder (sortedControlIDs.take n)).flatMap
          (controlOut d pp controls allResources)) := by
  intro n
  induction n with
  | zero => intro pp _; simp [printResultsFrom, visitOrder, emit_nil]
  | succ n ih =>
    intro pp hn
    simp only [printResultsFrom]
    rw [ih _ (by omega), printResultsBucket_eq_emit, emit_emit,
      take_succ_getD sortedControlIDs n (by omega)]
    simp only [visitOrder, List.reverse_append, List.reverse_singleton, List.singleton_append,
      List.flatten_cons, List.flatMap_append]
    rfl

theorem visitOrder_perm (sortedControlIDs : List (List String)) :
    (visitOrder sortedControlIDs).Perm sortedControlIDs.flatten :=
  (List.reverse_perm sortedControlIDs).flatten

/-! ## `printSummaryTable` -/

theorem summaryRowsBucket_eq (d : Deps) (sd : SummaryDetails) (info : List infoStars)
    (printAll : Bool) (bucket : List String) (t : Table) :
    summaryRowsBucket d sd info printAll bucket t =
      { t with
        rows := t.rows ++ nonEmptyRows
          (bucket.map (fun c => d.generateRow (sd.Controls.GetControl c) info printAll)) } := by
  induction bucket generalizing t with
  | nil => simp [summaryRowsBucket, nonEmptyRows]
  | cons c rest ih =>
    simp only [summaryRowsBucket, List.map_cons]
    rw [ih]
    by_cases hr : (d.generateRow (sd.Controls.GetControl c) info printAll).length > 0
    · simp [hr, List.filter_cons, nonEmptyRows]
    · simp [hr, List.filter_cons, nonEmptyRows]

theorem summaryRowsFrom_eq (d : Deps) (sd : SummaryDetails) (info : List infoStars)
    (printAll : Bool) (sortedControlIDs : List (List String)) :
    ∀ (n : Nat) (t : Table), n ≤ sortedControlIDs.length →
      summaryRowsFrom d sd info printAll sortedControlIDs n t =
        { t with
          rows := t.rows ++ nonEmptyRows
            ((visitOrder (sortedControlIDs.take n)).map
              (fun c => d.generateRow (sd.Controls.GetControl c) info printAll)) } := by
  intro n
  induction n with
  | zero => intro t _; simp [summaryRowsFrom, visitOrder, nonEmptyRows]
  | succ n ih =>
    intro t hn
    simp only [summaryRowsFrom]
    rw [ih _ (by omega), summaryRowsBucket_eq, take_succ_getD sortedControlIDs n (by omega)]
    simp [visitOrder, List.filter_append, nonEmptyRows]

theorem printInfo_eq (pp : PrettyPrinter) (info : List infoStars) :
    printInfo pp info = ({ pp with stdout := pp.stdout ++ ["\n"] }).emit (info.map infoWrite) := by
  unfold printInfo
  generalize ({ pp with stdout := pp.stdout ++ ["\n"] } : PrettyPrinter) = q
  induction info generalizing q with
  | nil => simp [emit_nil]
  | cons i rest ih =>
    simp only [List.foldl_cons, List.map_cons]
    rw [ih, display_eq_emit, emit_emit]
    rfl

theorem printSummaryTable_zero (d : Deps) (pp : PrettyPrinter) (sd : SummaryDetails)
    (ids : List (List String)) (h : sd.NumberOfControls.All = 0) :
    printSummaryTable d pp sd ids = some (pp.emit [advisory]) := by
  unfold printSummaryTable
  rw [if_pos h]
  rfl

theorem printSummaryTable_nonzero (d : Deps) (pp : PrettyPrinter) (sd : SummaryDetails)
    (ids : List (List String)) (h : sd.NumberOfControls.All ≠ 0) :
    printSummaryTable d pp sd ids =
      some (({ pp with stdout := pp.stdout ++ ["\n"] }).emit
        (countersOut sd ++ [Out.table (summaryTableOf d pp sd ids)] ++ trailerOut d sd)) := by
  unfold printSummaryTable
  rw [if_neg h]
  simp only [frameworksScoresToString_eq_ref, printInfo_eq, display_eq_emit]
  rw [summaryRowsFrom_eq d sd _ _ ids ids.length _ (le_refl _), List.take_length]
  simp [PrettyPrinter.emit, countersOut, trailerOut, summaryTableOf, summaryRows, printAllOf]

/-! ## Decimal counts -/

theorem digitChar_digit (k : Nat) (h : k < 10) :
    (Nat.digitChar k).isDigit = true ∧ (Nat.digitChar k).toNat - 48 = k := by
  interval_cases k <;> exact ⟨by decide, by decide⟩

theorem parseDigits_append (xs ys : List Char) (acc : Nat) :
    parseDigits (xs ++ ys) acc = (parseDigits xs acc).bind (parseDigits ys) := by
  induction xs generalizing acc with
  | nil => simp [parseDigits]
  | cons c cs ih =>
    simp only [List.cons_append, parseDigits]
    by_cases hc : c.isDigit = true
    · simp [hc, ih]
    · simp [hc]

theorem toDigitsCore_digits : ∀ (fuel n : Nat) (ds : List Char), n < fuel →
    ∃ xs : List Char, Nat.toDigitsCore 10 fuel n ds = xs ++ ds ∧ xs ≠ [] ∧
      ∀ acc, parseDigits xs acc = some (acc * 10 ^ xs.length + n) := by
  intro fuel
  induction fuel with
  | zero => intro n ds h; omega
  | succ fuel ih =>
    intro n ds hn
    have hd := digitChar_digit (n % 10) (Nat.mod_lt _ (by decide))
    unfold Nat.toDigitsCore
    by_cases h0 : n / 10 = 0
    · refine ⟨[Nat.digitChar (n % 10)], by simp [h0], by simp, ?_⟩
      intro acc
      have hn10 : n % 10 = n := Nat.mod_eq_of_lt (by omega)
      simp only [parseDigits, hd.1, hd.2, if_true, List.length_singleton, pow_one]
      rw [hn10]
    · obtain ⟨xs, hxs, _, hp⟩ := ih (n / 10) (Nat.digitChar (n % 10) :: ds) (by omega)
      refine ⟨xs ++ [Nat.digitChar (n % 10)], by simp [h0, hxs], by simp, ?_⟩
      intro acc
      rw [parseDigits_append, hp]
      simp only [Option.some_bind, parseDigits, hd.1, hd.2, if_true, List.length_append,
        List.length_singleton, Option.some.injEq]
      have := Nat.div_add_mod n 10
      rw [pow_succ]
      nlinarith [this]

theorem parseCount_fmtD (n : Nat) : parseCount (fmtD n) = some n := by
  obtain ⟨xs, hxs, hne, hp⟩ := toDigitsCore_digits (n + 1) n [] (by omega)
  have hdata : (fmtD n).data = xs := by
    simp [fmtD, Nat.repr, Nat.toDigits, hxs, List.asString]
  unfold parseCount
  rw [hdata]
  cases xs with
  | nil => exact absurd rfl hne
  | cons c cs => simpa using hp 0

theorem cellCount_generateFooter (d : Deps) (sd : SummaryDetails) :
    cellCount columnCounterFailed (generateFooter d sd) = sd.NumberOfResources.Failed ∧
    cellCount columnCounterExclude (generateFooter d sd) = sd.NumberOfResources.Excluded ∧
    cellCount columnCounterAll (generateFooter d sd) = sd.NumberOfResources.All := by
  simp [cellCount, generateFooter, _rowLen, columnName, columnSeverity, columnCounterFailed,
    columnCounterExclude, columnCounterAll, columnRiskScore, List.replicate, parseCount_fmtD]

theorem cellCount_generateRow (fmt2f : Float32 → String) (severity : IControlSummary → String)
    (cs : IControlSummary) (info : List infoStars) (printAll : Bool)
    (h : ¬ (cs.GetStatus.IsSkipped = true ∧ printAll = false)) :
    cellCount columnCounterFailed (generateRow fmt2f severity cs info printAll) =
      cs.NumberOfResources.Failed ∧
    cellCount columnCounterExclude (generateRow fmt2f severity cs info printAll) =
      cs.NumberOfResources.Excluded ∧
    cellCount columnCounterAll (generateRow fmt2f severity cs info printAll) =
      cs.NumberOfResources.All ∧
    (generateRow fmt2f severity cs info printAll).length > 0 := by
  unfold generateRow
  rw [if_neg h]
  simp [cellCount, _rowLen, columnName, columnSeverity, columnCounterFailed,
    columnCounterExclude, columnCounterAll, columnRiskScore, List.replicate, parseCount_fmtD]

theorem generateRow_suppressed (fmt2f : Float32 → String)
    (severity : IControlSummary → String) (cs : IControlSummary) (info : List infoStars)
    (printAll : Bool) (h : cs.GetStatus.IsSkipped = true ∧ printAll = false) :
    generateRow fmt2f severity cs info printAll = [] := by
  unfold generateRow
  rw [if_pos h]

theorem columnSum_nonEmptyRows_generateRow (fmt2f : Float32 → String)
    (severity : IControlSummary → String) (controls : ControlSummaries)
    (info : List infoStars) (printAll : Bool) (col : Nat) (counter : ICounters → Nat)
    (hcol : ∀ cs : IControlSummary, ¬ (cs.GetStatus.IsSkipped = true ∧ printAll = false) →
      cellCount col (generateRow fmt2f severity cs info printAll) =
        counter cs.NumberOfResources)
    (cs : List String) :
    columnSum col (nonEmptyRows (cs.map (fun c =>
        generateRow fmt2f severity (controls.GetControl c) info printAll))) =
      ((cs.filter (fun c =>
          !((controls.GetControl c).GetStatus.IsSkipped && !printAll))).map
        (fun c => counter (controls.GetControl c).NumberOfResources)).sum := by
  induction cs with
  | nil => simp [columnSum, nonEmptyRows]
  | cons c rest ih =>
    unfold columnSum nonEmptyRows at *
    by_cases hs : (controls.GetControl c).GetStatus.IsSkipped = true ∧ printAll = false
    · have hrow := generateRow_suppressed fmt2f severity (controls.GetControl c) info printAll hs
      simp only [List.map_cons, hrow, List.filter_cons]
      simp [hs.1, hs.2]
      simpa [hs.2] using ih
    · have hrow := cellCount_generateRow fmt2f severity (controls.GetControl c) info printAll hs
      have hc := hcol (controls.GetControl c) hs
      have hkeep : (!((controls.GetControl c).GetStatus.IsSkipped && !printAll)) = true := by
        cases h1 : (controls.GetControl c).GetStatus.IsSkipped <;> cases h2 : printAll <;>
          simp_all
      simp only [List.map_cons, List.filter_cons, hkeep, if_true, List.sum_cons]
      rw [if_pos (by simpa using hrow.2.2.2)]
      simp only [List.map_cons, List.sum_cons, hc]
      rw [ih]

theorem summaryTableOf_same_rows (d : Deps) (pp : PrettyPrinter) (sd1 sd2 : SummaryDetails)
    (ids : List (List String)) (hc : sd1.Controls = sd2.Controls)
    (hp : printAllOf pp sd1 = printAllOf pp sd2) :
    (summaryTableOf d pp sd1 ids).rows = (summaryTableOf d pp sd2 ids).rows := by
  simp [summaryTableOf, summaryRows, hc, hp]

theorem advisory_not_mem (d : Deps) (pp : PrettyPrinter) (sd : SummaryDetails)
    (ids : List (List String)) :
    advisory ∉ countersOut sd ++ [Out.table (summaryTableOf d pp sd ids)] ++ trailerOut d sd := by
  intro h
  simp [countersOut, trailerOut, advisory, infoWrite] at h

/-- C3: when the total number of controls is zero, `printSummaryTable` writes the
advisory message and nothing else (no counters line, no table, no framework line, no
annotation) and leaves the rest of the printer as it was; when it is non-zero the
advisory is not among the writes and the rendered table carries the footer row of
`generateFooter`. -/
theorem printSummaryTable_advisory (d : Deps) (pp : PrettyPrinter)
    (summaryDetails : SummaryDetails) (sortedControlIDs : List (List String)) :
    (summaryDetails.NumberOfControls.All = 0 →
      printSummaryTable d pp summaryDetails sortedControlIDs =
        some { pp with writer := pp.writer ++ [advisory] }) ∧
    (summaryDetails.NumberOfControls.All ≠ 0 →
      ∃ (pp2 : PrettyPrinter) (out : List Out) (t : Table),
        printSummaryTable d pp summaryDetails sortedControlIDs = some pp2 ∧
        pp2.writer = pp.writer ++ out ∧
        advisory ∉ out ∧
        Out.table t ∈ out ∧
        t.footer = generateFooter d summaryDetails) := by
  constructor
  · intro h
    exact printSummaryTable_zero d pp summaryDetails sortedControlIDs h
  · intro h
    refine ⟨_, _, summaryTableOf d pp summaryDetails sortedControlIDs,
      printSummaryTable_nonzero d pp summaryDetails sortedControlIDs h, ?_,
      advisory_not_mem d pp summaryDetails sortedControlIDs, ?_, rfl⟩
    · simp [PrettyPrinter.emit]
    · simp

/-- Witness of C3 at a scan without controls and at a scan with two controls. -/
theorem printSummaryTable_advisory_witness :
    printSummaryTable sampleDeps samplePrinter sampleEmptySummary [] =
        some { samplePrinter with writer := samplePrinter.writer ++ [advisory] } ∧
      ∃ (pp2 : PrettyPrinter) (out : List Out) (t : Table),
        printSummaryTable sampleDeps samplePrinter sampleSummary sampleBuckets = some pp2 ∧
        pp2.writer = samplePrinter.writer ++ out ∧
        advisory ∉ out ∧
        Out.table t ∈ out ∧
        t.footer = generateFooter sampleDeps sampleSummary :=
  ⟨(printSummaryTable_advisory sampleDeps samplePrinter sampleEmptySummary []).1 rfl,
    (printSummaryTable_advisory sampleDeps samplePrinter sampleSummary sampleBuckets).2
      (by decide)⟩

/-- C4: for every bucket sequence `[b0, ..., bk]`, `printResults` handles the
identifiers in the order `bk ++ ... ++ b1 ++ b0` (`visitOrder`), a rearrangement of the
listed identifiers that keeps every occurrence, and writes for each, in this order, its
title, its grouped resources and its summary; `printSummaryTable` generates its rows in
the same order, so the rows of the table are the non-empty ones among the generated
rows, in that order. -/
theorem printResults_visit_order (d : Deps) (pp : PrettyPrinter) (controls : ControlSummaries)
    (allResources : List (String × IMetadata)) (sortedControlIDs : List (List String)) :
    visitOrder sortedControlIDs = sortedControlIDs.reverse.flatten ∧
    (visitOrder sortedControlIDs).Perm sortedControlIDs.flatten ∧
    printResults d pp controls allResources sortedControlIDs =
      pp.emit ((visitOrder sortedControlIDs).flatMap (fun c =>
        titleOut d pp (controls.GetControl c) ++
          resourcesOut d pp (controls.GetControl c) allResources ++
          summaryOut pp c (controls.GetControl c))) ∧
    (∀ summaryDetails : SummaryDetails, summaryDetails.NumberOfControls.All ≠ 0 →
      ∃ (pp2 : PrettyPrinter) (before after : List Out) (t : Table),
        printSummaryTable d pp summaryDetails sortedControlIDs = some pp2 ∧
        pp2.writer = pp.writer ++ before ++ [Out.table t] ++ after ∧
        t.rows = ((visitOrder sortedControlIDs).map (fun c =>
          d.generateRow (summaryDetails.Controls.GetControl c)
            (d.mapInfoToPrintInfo summaryDetails.Controls)
            (printAllOf pp summaryDetails))).filter (fun row => decide (row.length > 0))) := by
  refine ⟨rfl, visitOrder_perm sortedControlIDs, ?_, ?_⟩
  · unfold printResults
    rw [printResultsFrom_eq_emit d controls allResources sortedControlIDs _ pp (le_refl _),
      List.take_length]
    rfl
  · intro sd h
    refine ⟨_, countersOut sd, trailerOut d sd, summaryTableOf d pp sd sortedControlIDs,
      printSummaryTable_nonzero d pp sd sortedControlIDs h, ?_, rfl⟩
    simp [PrettyPrinter.emit]

/-- Witness of C4 at the scan with two controls in one bucket. -/
theorem printResults_visit_order_witness :
    ∃ (pp2 : PrettyPrinter) (before after : List Out) (t : Table),
      printSummaryTable sampleDeps samplePrinter sampleSummary sampleBuckets = some pp2 ∧
      pp2.writer = samplePrinter.writer ++ before ++ [Out.table t] ++ after ∧
      t.rows = ((visitOrder sampleBuckets).map (fun c =>
        sampleDeps.generateRow (sampleSummary.Controls.GetControl c)
          (sampleDeps.mapInfoToPrintInfo sampleSummary.Controls)
          (printAllOf samplePrinter sampleSummary))).filter
        (fun row => decide (row.length > 0)) :=
  (printResults_visit_order sampleDeps samplePrinter sampleControls [] sampleBuckets).2.2.2
    sampleSummary (by decide)

/-- C2, as stated, fails: in the scan of one resource that fails two controls the table
has two rows, each with failed count 1 and total count 1, so the columns sum to 2, while
the footer row shows the failed count 1 and the total count 1. -/
theorem footer_counts_not_column_sums :
    ∃ (pp2 : PrettyPrinter) (t : Table),
      printSummaryTable sampleDeps samplePrinter sampleSummary sampleBuckets = some pp2 ∧
      Out.table t ∈ pp2.writer ∧
      t.footer = generateFooter sampleDeps sampleSummary ∧
      t.rows.length = 2 ∧
      cellCount columnCounterFailed t.footer = 1 ∧
      columnSum columnCounterFailed t.rows = 2 ∧
      cellCount columnCounterAll t.footer = 1 ∧
      columnSum columnCounterAll t.rows = 2 := by
  refine ⟨_, summaryTableOf sampleDeps samplePrinter sampleSummary sampleBuckets,
    printSummaryTable_nonzero sampleDeps samplePrinter sampleSummary sampleBuckets (by decide),
    ?_, rfl, ?_, ?_, ?_, ?_, ?_⟩
  · simp [PrettyPrinter.emit]
  · decide
  · decide
  · decide
  · decide
  · decide

/-- C2 (amended): for every summary with at least one control, the failed, excluded and
total counts of the footer row are the resource counters of the summary as a whole,
while the sums of the failed, excluded and total columns over the rows of the table are
the sums of the counters of the controls whose row is not suppressed; the footer equals
the column sums exactly when the counters of the summary equal those sums. -/
theorem footer_counts_are_summary_counters (fmt2f : Float32 → String)
    (severityLabel : IControlSummary → String) (d : Deps) (pp : PrettyPrinter)
    (summaryDetails : SummaryDetails) (sortedControlIDs : List (List String))
    (hrow : d.generateRow = generateRow fmt2f severityLabel)
    (hcontrols : summaryDetails.NumberOfControls.All ≠ 0) :
    ∃ (pp2 : PrettyPrinter) (before after : List Out) (t : Table),
      printSummaryTable d pp summaryDetails sortedControlIDs = some pp2 ∧
      pp2.writer = pp.writer ++ before ++ [Out.table t] ++ after ∧
      t.footer = generateFooter d summaryDetails ∧
      cellCount columnCounterFailed t.footer = summaryDetails.NumberOfResources.Failed ∧
      cellCount columnCounterExclude t.footer = summaryDetails.NumberOfResources.Excluded ∧
      cellCount columnCounterAll t.footer = summaryDetails.NumberOfResources.All ∧
      columnSum columnCounterFailed t.rows =
        ((shownControls pp summaryDetails sortedControlIDs).map (fun c =>
          (summaryDetails.Controls.GetControl c).NumberOfResources.Failed)).sum ∧
      columnSum columnCounterExclude t.rows =
        ((shownControls pp summaryDetails sortedControlIDs).map (fun c =>
          (summaryDetails.Controls.GetControl c).NumberOfResources.Excluded)).sum ∧
      columnSum columnCounterAll t.rows =
        ((shownControls pp summaryDetails sortedControlIDs).map (fun c =>
          (summaryDetails.Controls.GetControl c).NumberOfResources.All)).sum := by
  have hfoot := cellCount_generateFooter d summaryDetails
  refine ⟨_, countersOut summaryDetails, trailerOut d summaryDetails,
    summaryTableOf d pp summaryDetails sortedControlIDs,
    printSummaryTable_nonzero d pp summaryDetails sortedControlIDs hcontrols, ?_, rfl,
    hfoot.1, hfoot.2.1, hfoot.2.2, ?_, ?_, ?_⟩
  · simp [PrettyPrinter.emit]
  · simp only [summaryTableOf, summaryRows, shownControls, hrow]
    exact columnSum_nonEmptyRows_generateRow fmt2f severityLabel summaryDetails.Controls _ _
      columnCounterFailed (fun n => n.Failed)
      (fun cs h => (cellCount_generateRow fmt2f severityLabel cs _ _ h).1) _
  · simp only [summaryTableOf, summaryRows, shownControls, hrow]
    exact columnSum_nonEmptyRows_generateRow fmt2f severityLabel summaryDetails.Controls _ _
      columnCounterExclude (fun n => n.Excluded)
      (fun cs h => (cellCount_generateRow fmt2f severityLabel cs _ _ h).2.1) _
  · simp only [summaryTableOf, summaryRows, shownControls, hrow]
    exact columnSum_nonEmptyRows_generateRow fmt2f severityLabel summaryDetails.Controls _ _
      columnCounterAll (fun n => n.All)
      (fun cs h => (cellCount_generateRow fmt2f severityLabel cs _ _ h).2.2.1) _

/-- Witness of C2 (amended) at the scan of one resource that fails two controls. -/
theorem footer_counts_are_summary_counters_witness :
    ∃ (pp2 : PrettyPrinter) (before after : List Out) (t : Table),
      printSummaryTable sampleDeps samplePrinter sampleSummary sampleBuckets = some pp2 ∧
      pp2.writer = samplePrinter.writer ++ before ++ [Out.table t] ++ after ∧
      t.footer = generateFooter sampleDeps sampleSummary ∧
      cellCount columnCounterFailed t.footer = 1 ∧
      columnSum columnCounterFailed t.rows = 2 := by
  obtain ⟨pp2, before, after, t, h1, h2, h3, h4, _, _, h5, _, _⟩ :=
    footer_counts_are_summary_counters (fun _ => "0.00") (fun _ => "High") sampleDeps
      samplePrinter sampleSummary sampleBuckets rfl (by decide)
  exact ⟨pp2, before, after, t, h1, h2, h3, h4, h5.trans (by decide)⟩

end Kubescape
